import Mathlib

/-!
# HttpStream (mpd-interface/httpstream.cpp)

A shallow embedding of the `HttpStream` class of `src/mpd-interface/httpstream.cpp`:
the object's fields, the settings store it writes to, and the sequence of calls it
makes on its collaborators (media backend, settings, Qt signals), recorded as a trace.

The file is compiled in two configurations (`#ifdef LIBVLC_FOUND` / `#else`); the
configuration is the parameter `Build` of the functions whose body depends on it.
-/

namespace HttpStream

/-! ## Data model -/

/-- The two build configurations selected by the macro `LIBVLC_FOUND`. -/
inductive Build
  | LIBVLC
  | QMediaPlayer
  deriving DecidableEq

/-- The values of `libvlc_state_t` (libvlc), the answer of
`libvlc_media_player_get_state`. -/
inductive libvlc_state_t
  | libvlc_NothingSpecial
  | libvlc_Opening
  | libvlc_Buffering
  | libvlc_Playing
  | libvlc_Paused
  | libvlc_Stopped
  | libvlc_Ended
  | libvlc_Error
  deriving DecidableEq

/-- The values of `QMediaPlayer::PlaybackState` (Qt 6), the answer of
`QMediaPlayer::playbackState()`. -/
inductive PlaybackState
  | StoppedState
  | PlayingState
  | PausedState
  deriving DecidableEq

/-- Modelled from the spec: the enumeration `MPDState` is declared in `mpdstatus.h`, which
is not part of the sources; it has the four enumerators `Inactive`, `Playing`, `Stopped`,
`Paused` (spec section 3, TransportState), numbered from 0 in declaration order. The
theorems below use only that the four values are distinct and differ from `0xFFFF`. -/
def MPDState_Inactive : Int := 0

/-- Modelled from the spec: see `MPDState_Inactive`. -/
def MPDState_Playing : Int := 1

/-- Modelled from the spec: see `MPDState_Inactive`. -/
def MPDState_Stopped : Int := 2

/-- Modelled from the spec: see `MPDState_Inactive`. -/
def MPDState_Paused : Int := 3

/-- Source line 35: `static const int constPlayerCheckPeriod = 250;` -/
def constPlayerCheckPeriod : Int := 250

/-- Source line 36: `static const int constMaxPlayStateChecks = 2000 / constPlayerCheckPeriod;` -/
def constMaxPlayStateChecks : Int := 2000 / constPlayerCheckPeriod

/-- What the code observes of a `QUrl` value: `isEmpty()`, `isValid()`, `scheme()` and
`toString()`. The constructor `QUrl(QString)` belongs to Qt; it is a parameter
`q : String → QUrl` of the functions that use it. -/
structure QUrl where
  isEmpty : Bool
  isValid : Bool
  scheme : String
  toString : String
  deriving DecidableEq

/-- The call `s.startsWith(pre)` of `QString`, on the characters of the two strings. -/
def startsWith (s pre : String) : Bool :=
  pre.data.isPrefixOf s.data

/-- The media backend handle (`libvlc_media_player_t *` or `QMediaPlayer *`): the location
it was created for, and the mute flag last written to it by a set-mute command (a new
handle is not muted). In the QMediaPlayer build `player->source()` is `q url`, the `QUrl`
given to `setSource`. -/
structure Player where
  url : String
  audioMuted : Bool
  deriving DecidableEq

/-- The `QTimer` behind `playStateCheckTimer`. -/
structure QTimer where
  singleShot : Bool
  interval : Int
  active : Bool
  deriving DecidableEq

/-- The calls the object makes on its collaborators, in the order it makes them.
* backend: `create` (lines 180-187: a new handle for a location), `release` (lines 157-158
  or 170: the handle is given up), `play`, `stop`, `pause`, `setSource` (line 263),
  `setVolume`, `getVolume`, `setMute`, `getState` (the playback-state query of lines 239,
  244 and 292);
* settings store: `configSet`, `configGet`;
* Qt signals of the object: `emitUpdate` (`emit update()`), `emitIsEnabled`;
* subscriptions to the MPD singletons: `connect`, `disconnect` (lines 75-76, 79-80). -/
inductive Event
  | create (url : String)
  | release
  | play
  | stop
  | pause
  | setSource (url : String)
  | setVolume (vol : Int)
  | getVolume
  | setMute (m : Bool)
  | getState
  | configSet (key : String) (value : Int)
  | configGet (key : String)
  | emitUpdate
  | emitIsEnabled (e : Bool)
  | connect
  | disconnect
  deriving DecidableEq

/-- The fields of the class, with the names of the source (constructor, lines 48-59). -/
structure Fields where
  enabled : Bool
  muted : Bool
  state : Int
  playStateChecks : Int
  currentVolume : Int
  unmuteVol : Int
  playStateCheckTimer : Option QTimer
  player : Option Player
  deriving DecidableEq

/-- The object together with the settings store (key, value) it reads and writes and the
trace of the calls made so far. -/
structure World where
  self : Fields
  settings : List (String × Int)
  trace : List Event
  deriving DecidableEq

/-- What the environment answers during one call: the remote transport state
(`MPDStatus::self()->state()`), the URL the remote advertises
(`MPDConnection::self()->getDetails().streamUrl`), the backend's playback state in either
build, and the backend's volume read. -/
structure Env where
  status : Int
  streamUrl : String
  vlcState : libvlc_state_t
  playbackState : PlaybackState
  backendVolume : Int
  deriving DecidableEq

/-- The constructor `HttpStream::HttpStream` (lines 48-59). -/
def Fields.new : Fields :=
  { enabled := false
    muted := false
    state := MPDState_Inactive
    playStateChecks := 0
    currentVolume := 50
    unmuteVol := 50
    playStateCheckTimer := none
    player := none }

/-- A freshly constructed object over a given settings store. -/
def World.new (settings : List (String × Int)) : World :=
  { self := Fields.new, settings := settings, trace := [] }

/-- Modelled from the spec: the accessor `isMuted()` is declared in `httpstream.h`, which is
not part of the sources; it reports the local `muted` flag (spec 4.3, VolumeState). -/
def Fields.isMuted (s : Fields) : Bool := s.muted

/-- Modelled from the spec: `Configuration::get(key, default)` of `support/configuration.h`
(not part of the sources): the stored value, or the default when the key is absent. -/
def Configuration.get (c : List (String × Int)) (key : String) (dflt : Int) : Int :=
  match c.lookup key with
  | some v => v
  | none => dflt

/-- Modelled from the spec: `Configuration::set(key, value)` of `support/configuration.h`
(not part of the sources): the key is bound to the value. -/
def Configuration.set (c : List (String × Int)) (key : String) (value : Int) :
    List (String × Int) :=
  (key, value) :: c.filter (fun kv => kv.1 != key)

/-- Appends calls to the trace. -/
def World.emit (w : World) (es : List Event) : World :=
  { w with trace := w.trace ++ es }

/-- The calls made between an earlier world and a later one. -/
def emitted (w w' : World) : List Event :=
  w'.trace.drop w.trace.length

/-- Whether the watchdog timer exists and is running. -/
def Fields.timerActive (s : Fields) : Bool :=
  match s.playStateCheckTimer with
  | some t => t.active
  | none => false

/-! ## Operations -/

/-- The method `HttpStream::save` (lines 61-65). -/
def save (w : World) : World :=
  { w with
    settings := Configuration.set w.settings "volume" w.self.currentVolume
    trace := w.trace ++ [Event.configSet "volume" w.self.currentVolume] }

/-- The method `HttpStream::setVolume` (lines 93-106). -/
def setVolume (vol : Int) (w : World) : World :=
  match w.self.player with
  | some _ =>
    { w with
      self := { w.self with currentVolume := vol }
      trace := w.trace ++ [Event.setVolume vol, Event.emitUpdate] }
  | none => w

/-- The method `HttpStream::volume` (lines 108-130): the returned value and the world
after the call. -/
def volume (env : Env) (w : World) : Int × World :=
  if !w.self.enabled then
    (-1, w)
  else
    match w.self.player with
    | some _ =>
      if !w.self.isMuted then
        let vol := env.backendVolume
        let w1 := w.emit [Event.getVolume]
        if vol < 0 then
          (w.self.currentVolume, w1)
        else
          (vol, { w1 with self := { w1.self with currentVolume := vol } })
      else
        (w.self.currentVolume, w)
    | none => (w.self.currentVolume, w)

/-- The method `HttpStream::toggleMute` (lines 132-146). -/
def toggleMute (b : Build) (w : World) : World :=
  match w.self.player with
  | some p =>
    let m := !w.self.muted
    let arg := match b with
      | Build.LIBVLC => m
      | Build.QMediaPlayer => !m
    { w with
      self := { w.self with muted := m, player := some { p with audioMuted := arg } }
      trace := w.trace ++ [Event.setMute arg, Event.emitUpdate] }
  | none => w

/-- The method `HttpStream::startTimer` (lines 302-313). -/
def startTimer (w : World) : World :=
  let t : QTimer := match w.self.playStateCheckTimer with
    | some t => t
    | none => { singleShot := false, interval := constPlayerCheckPeriod, active := false }
  { w with
    self := { w.self with
      playStateCheckTimer := some { t with active := true }
      playStateChecks := constMaxPlayStateChecks } }

/-- The method `HttpStream::stopTimer` (lines 315-322). -/
def stopTimer (w : World) : World :=
  { w with
    self := { w.self with
      playStateCheckTimer := w.self.playStateCheckTimer.map (fun t => { t with active := false })
      playStateChecks := 0 } }

/-- The local `playerNeedsToStart` of `updateStatus` (lines 237-245). -/
def playerNeedsToStart (b : Build) (env : Env) : Bool :=
  env.status == MPDState_Playing &&
    (match b with
      | Build.LIBVLC => env.vlcState != libvlc_state_t.libvlc_Playing
      | Build.QMediaPlayer => env.playbackState == PlaybackState.StoppedState)

/-- The method `HttpStream::updateStatus` (lines 227-283). The playback-state query of
lines 239/244 is the right operand of `&&`: it is made only when the remote state is
Playing. -/
def updateStatus (b : Build) (env : Env) (w : World) : World :=
  match w.self.player with
  | none => w
  | some p =>
    let w1 := if env.status == MPDState_Playing then w.emit [Event.getState] else w
    if env.status == w.self.state && !playerNeedsToStart b env then
      w1
    else
      let w2 : World := { w1 with self := { w1.self with state := env.status } }
      if env.status == MPDState_Playing then
        if playerNeedsToStart b env then
          match b with
          | Build.LIBVLC => startTimer (w2.emit [Event.play])
          | Build.QMediaPlayer => w2.emit [Event.setSource p.url]
        else
          w2
      else if env.status == MPDState_Paused || env.status == MPDState_Inactive
          || env.status == MPDState_Stopped then
        match b with
        | Build.LIBVLC => stopTimer (w2.emit [Event.stop])
        | Build.QMediaPlayer => w2.emit [Event.stop]
      else
        match b with
        | Build.LIBVLC => stopTimer w2
        | Build.QMediaPlayer => w2

/-- The method `HttpStream::checkPlayer` (lines 285-300); `none` when line 292 hands a
null handle to libvlc. The body is empty in the QMediaPlayer build. -/
def checkPlayer (b : Build) (env : Env) (w : World) : Option World :=
  match b with
  | Build.QMediaPlayer => some w
  | Build.LIBVLC =>
    let n := w.self.playStateChecks - 1
    let w1 : World := { w with self := { w.self with playStateChecks := n } }
    let w2 := if 0 == n then stopTimer w1 else w1
    match w2.self.player with
    | none => none
    | some _ =>
      let w3 := w2.emit [Event.getState]
      if env.vlcState == libvlc_state_t.libvlc_Playing then
        some (stopTimer w3)
      else
        some (w3.emit [Event.play])

/-- First block of `HttpStream::streamUrl` (lines 154-174): the existing player is given
up, always in the LIBVLC build, and in the QMediaPlayer build when its source is not empty
and prints differently from `url`. -/
def streamUrl.clear (b : Build) (q : String → QUrl) (url : String) (w : World) : World :=
  match w.self.player with
  | none => w
  | some p =>
    match b with
    | Build.LIBVLC =>
      { w with
        self := { w.self with player := none }
        trace := w.trace ++ [Event.stop, Event.release] }
    | Build.QMediaPlayer =>
      let media := q p.url
      if !media.isEmpty && media.toString != url then
        { w with
          self := { w.self with player := none }
          trace := w.trace ++ [Event.stop, Event.release] }
      else
        w

/-- Second block of `HttpStream::streamUrl` (lines 176-200): a player is created for an
acceptable URL when there is none, `muted` is reset and the stored volume applied. -/
def streamUrl.create (q : String → QUrl) (url : String) (w : World) : World :=
  let qUrl := q url
  if url != "" && qUrl.isValid && startsWith qUrl.scheme "http" && w.self.player.isNone then
    let w1 : World :=
      { w with
        self := { w.self with player := some { url := url, audioMuted := false }, muted := false }
        trace := w.trace ++ [Event.create url] }
    setVolume (Configuration.get w1.settings "volume" w1.self.currentVolume)
      (w1.emit [Event.configGet "volume"])
  else
    w

/-- Third block of `HttpStream::streamUrl` (lines 201-206): with a player, `state` is set
to `0xFFFF` and `updateStatus` is called; without one, `state` is set to Inactive. -/
def streamUrl.reconcile (b : Build) (env : Env) (w : World) : World :=
  match w.self.player with
  | some _ => updateStatus b env { w with self := { w.self with state := 0xFFFF } }
  | none => { w with self := { w.self with state := MPDState_Inactive } }

/-- The method `HttpStream::streamUrl` (lines 149-208): its three blocks in sequence, then
`emit update()` (line 207). -/
def streamUrl (b : Build) (q : String → QUrl) (url : String) (env : Env) (w : World) :
    World :=
  (streamUrl.reconcile b env (streamUrl.create q url (streamUrl.clear b q url w))).emit
    [Event.emitUpdate]

/-- The method `HttpStream::bufferingProgress` (lines 214-224, QMediaPlayer build only);
`none` when line 219 or 221 is reached with a null `player`. -/
def bufferingProgress (progress : Int) (env : Env) (w : World) : Option World :=
  if env.status == MPDState_Playing then
    match w.self.player with
    | none => none
    | some _ =>
      if progress == 100 then
        some (w.emit [Event.play])
      else
        some (w.emit [Event.pause])
  else
    some w

/-- The method `HttpStream::setEnabled` (lines 67-91). -/
def setEnabled (b : Build) (q : String → QUrl) (e : Bool) (env : Env) (w : World) : World :=
  if e == w.self.enabled then
    w
  else
    let w1 : World := { w with self := { w.self with enabled := e } }
    let w2 : World :=
      if w1.self.enabled then
        streamUrl b q env.streamUrl env (w1.emit [Event.connect])
      else
        let w1d := w1.emit [Event.disconnect]
        match w1d.self.player with
        | some _ => (save w1d).emit [Event.stop]
        | none => w1d
    w2.emit [Event.emitIsEnabled w2.self.enabled]

/-! ## Sequences of calls -/

/-- The entry points of the object. -/
inductive Call
  | setEnabled (e : Bool)
  | setVolume (vol : Int)
  | volume
  | toggleMute
  | streamUrl (url : String)
  | updateStatus
  | bufferingProgress (progress : Int)
  | checkPlayer
  | startTimer
  | stopTimer
  deriving DecidableEq

/-- One call of an entry point; `none` when the call hands a null handle to the backend,
or when the entry point does not exist in the build (`bufferingProgress` under LIBVLC). -/
def step (b : Build) (q : String → QUrl) (c : Call) (env : Env) (w : World) : Option World :=
  match c with
  | Call.setEnabled e => some (setEnabled b q e env w)
  | Call.setVolume vol => some (setVolume vol w)
  | Call.volume => some (volume env w).2
  | Call.toggleMute => some (toggleMute b w)
  | Call.streamUrl url => some (streamUrl b q url env w)
  | Call.updateStatus => some (updateStatus b env w)
  | Call.bufferingProgress progress =>
    match b with
    | Build.LIBVLC => none
    | Build.QMediaPlayer => bufferingProgress progress env w
  | Call.checkPlayer => checkPlayer b env w
  | Call.startTimer => some (startTimer w)
  | Call.stopTimer => some (stopTimer w)

/-- The worlds reached from a freshly constructed object by calls that satisfy `allowed`
(which calls, with which arguments and environment answers, in which worlds). -/
inductive Reachable (b : Build) (q : String → QUrl) (allowed : Call → Env → World → Prop)
    (settings : List (String × Int)) : World → Prop
  | new : Reachable b q allowed settings (World.new settings)
  | step {w w' : World} (c : Call) (env : Env) :
      Reachable b q allowed settings w → allowed c env w → step b q c env w = some w' →
      Reachable b q allowed settings w'

/-- Every call is allowed, with any argument and any environment answer. -/
def anyCall : Call → Env → World → Prop := fun _ _ _ => True

/-- The public volume-related calls: `setEnabled`, `setVolume`, `volume`, `toggleMute`,
`streamUrl` and `updateStatus`, with any argument and any environment answer. -/
def volumeCalls : Call → Env → World → Prop
  | Call.setEnabled _, _, _ => True
  | Call.setVolume _, _, _ => True
  | Call.volume, _, _ => True
  | Call.toggleMute, _, _ => True
  | Call.streamUrl _, _, _ => True
  | Call.updateStatus, _, _ => True
  | _, _, _ => False

/-- The calls of `volumeCalls` with volumes kept to the range: every `setVolume` argument
is in 0..100 and the backend never reads a volume above 100 (it may read a negative one). -/
def boundedVolumeCalls : Call → Env → World → Prop
  | Call.setVolume vol, _, _ => 0 ≤ vol ∧ vol ≤ 100
  | Call.volume, env, _ => env.backendVolume ≤ 100
  | c, env, w => volumeCalls c env w

/-- The volume stored in the settings, when there is one, is in 0..100. -/
def SettingsInRange (c : List (String × Int)) : Prop :=
  ∀ v, c.lookup "volume" = some v → 0 ≤ v ∧ v ≤ 100

/-- The field `currentVolume` and the stored volume are in 0..100. -/
def VolumeInRange (w : World) : Prop :=
  (0 ≤ w.self.currentVolume ∧ w.self.currentVolume ≤ 100) ∧ SettingsInRange w.settings

/-- The watchdog-related calls: `startTimer`, `stopTimer`, `updateStatus`, `streamUrl`,
and `checkPlayer`, the timer's slot, only while the timer is running. -/
def timerCalls : Call → Env → World → Prop
  | Call.startTimer, _, _ => True
  | Call.stopTimer, _, _ => True
  | Call.updateStatus, _, _ => True
  | Call.streamUrl _, _, _ => True
  | Call.checkPlayer, _, w => w.self.timerActive = true
  | _, _, _ => False

/-- The calls that create and give up sessions: `setEnabled`, `streamUrl`, `updateStatus`,
and `checkPlayer`, the timer's slot, only while the timer is running. -/
def sessionCalls : Call → Env → World → Prop
  | Call.setEnabled _, _, _ => True
  | Call.streamUrl _, _, _ => True
  | Call.updateStatus, _, _ => True
  | Call.checkPlayer, _, w => w.self.timerActive = true
  | _, _, _ => False

/-- The timer is running exactly when the counter is in 1..8, and the counter is 0 when
the timer is not running. -/
def WatchdogInv (w : World) : Prop :=
  (w.self.timerActive = true ↔ 1 ≤ w.self.playStateChecks ∧ w.self.playStateChecks ≤ 8) ∧
  (w.self.timerActive = false → w.self.playStateChecks = 0)

/-- The second world has the watchdog (timer and counter) of the first. -/
def SameWatchdog (w w' : World) : Prop :=
  w'.self.playStateCheckTimer = w.self.playStateCheckTimer ∧
  w'.self.playStateChecks = w.self.playStateChecks

/-- The watchdog ticks: `checkPlayer` once per environment answer, in order. -/
def ticks (b : Build) : List Env → World → Option World
  | [], w => some w
  | env :: rest, w =>
    match checkPlayer b env w with
    | some w' => ticks b rest w'
    | none => none

/-- The test of line 178 on the URL alone: non-empty, valid, scheme starting with "http". -/
def acceptable (q : String → QUrl) (url : String) : Bool :=
  url != "" && (q url).isValid && startsWith (q url).scheme "http"

/-- The session, when there is one, was created for a URL that passed the test of
line 178. -/
def SessionUrlOk (q : String → QUrl) (w : World) : Prop :=
  ∀ p, w.self.player = some p → acceptable q p.url = true

/-- Assumption on Qt's `QUrl`, needed in the QMediaPlayer build only, where line 168
compares `player->source().toString()` with the new string: a URL that passed the test of
line 178 is not `isEmpty()`, and the string it prints passes that test too. -/
def QUrlPrintsAcceptable (q : String → QUrl) : Prop :=
  ∀ s, acceptable q s = true → (q s).isEmpty = false ∧ acceptable q (q s).toString = true

/-! ## Concrete values used to evaluate the code -/

/-- A small executable stand-in for the Qt constructor `QUrl(QString)`: a string is valid
when it is non-empty and has no space, its scheme is what precedes the first colon, and it
prints as it was written. -/
def QUrl.ofString (s : String) : QUrl :=
  { isEmpty := s.data.isEmpty
    isValid := !s.data.isEmpty && !s.data.contains ' '
    scheme := if s.data.contains ':' then String.mk (s.data.takeWhile (fun c => c != ':')) else ""
    toString := s }

/-- Environment answers: remote state Playing, backend not playing, backend volume 70. -/
def Env.playing : Env :=
  { status := MPDState_Playing
    streamUrl := "http://stream.example/radio"
    vlcState := libvlc_state_t.libvlc_Opening
    playbackState := PlaybackState.StoppedState
    backendVolume := 70 }

/-- Environment answers: remote state Paused, backend playing, backend volume 70. -/
def Env.paused : Env :=
  { status := MPDState_Paused
    streamUrl := "http://stream.example/radio"
    vlcState := libvlc_state_t.libvlc_Playing
    playbackState := PlaybackState.PlayingState
    backendVolume := 70 }

/-- An enabled object with a session for `http://stream.example/radio`, last observed
state Playing, watchdog never armed. -/
def World.withSession : World :=
  { self :=
      { enabled := true
        muted := false
        state := MPDState_Playing
        playStateChecks := 0
        currentVolume := 50
        unmuteVol := 50
        playStateCheckTimer := none
        player := some { url := "http://stream.example/radio", audioMuted := false } }
    settings := []
    trace := [] }

/-- The object of `World.withSession` after one `toggleMute`: locally muted. -/
def World.mutedSession : World :=
  { World.withSession with self := { World.withSession.self with muted := true } }

/-- The world after enabling a new LIBVLC object for `http://stream.example/radio`,
`setVolume(500)`, and then `streamUrl("")`: enabled, no session. -/
def World.loudNoSession : World :=
  streamUrl Build.LIBVLC QUrl.ofString "" Env.playing
    (setVolume 500 (setEnabled Build.LIBVLC QUrl.ofString true Env.playing (World.new [])))

/-- The world after enabling a new LIBVLC object for `http://stream.example/radio` over a
stored volume of 30, `setVolume(80)`, and then `streamUrl("")`: enabled, no session. -/
def World.quietNoSession : World :=
  streamUrl Build.LIBVLC QUrl.ofString "" Env.playing
    (setVolume 80
      (setEnabled Build.LIBVLC QUrl.ofString true Env.playing (World.new [("volume", 30)])))

/-- The world after `streamUrl("httpx://stream.example/radio")` on a new object. -/
def World.httpxSession : World :=
  streamUrl Build.LIBVLC QUrl.ofString "httpx://stream.example/radio" Env.playing (World.new [])

/-- The world after enabling a new LIBVLC object for `http://stream.example/radio` with
the remote Playing, and then `streamUrl("")`. -/
def World.armedNoSession : World :=
  streamUrl Build.LIBVLC QUrl.ofString "" Env.playing
    (setEnabled Build.LIBVLC QUrl.ofString true Env.playing (World.new []))

/-- The world after `streamUrl("http://stream.example/radio")` on a new LIBVLC object with
the remote Playing: a session, the watchdog armed. -/
def World.armedSession : World :=
  streamUrl Build.LIBVLC QUrl.ofString "http://stream.example/radio" Env.playing (World.new [])

/-! ## Lemmas on traces -/

theorem emitted_append (w w' : World) (es : List Event) (h : w'.trace = w.trace ++ es) :
    emitted w w' = es := by
  simp [emitted, h]

/-! ## updateStatus -/

/-- C1: in the LIBVLC build, when a session exists, the remote transport state is Playing
and the backend's own state is not Playing, one call of `updateStatus` queries the backend
and issues exactly one play command and no stop command, leaves the watchdog armed (timer
running, `playStateChecks = 8`) and sets the last observed state to Playing. -/
theorem updateStatus_starts_playback (env : Env) (w : World)
    (hp : w.self.player ≠ none) (hs : env.status = MPDState_Playing)
    (hb : env.vlcState ≠ libvlc_state_t.libvlc_Playing) :
    emitted w (updateStatus Build.LIBVLC env w) = [Event.getState, Event.play] ∧
    (emitted w (updateStatus Build.LIBVLC env w)).count Event.play = 1 ∧
    (emitted w (updateStatus Build.LIBVLC env w)).count Event.stop = 0 ∧
    (updateStatus Build.LIBVLC env w).self.timerActive = true ∧
    (updateStatus Build.LIBVLC env w).self.playStateChecks = 8 ∧
    (updateStatus Build.LIBVLC env w).self.state = MPDState_Playing := by
  obtain ⟨p, hp⟩ := Option.ne_none_iff_exists'.mp hp
  have he : emitted w (updateStatus Build.LIBVLC env w) = [Event.getState, Event.play] := by
    apply emitted_append
    simp [updateStatus, hp, hs, playerNeedsToStart, hb, startTimer, World.emit]
  rw [he]
  refine ⟨rfl, by decide, by decide, ?_, ?_, ?_⟩
  · simp [updateStatus, hp, hs, playerNeedsToStart, hb, startTimer, World.emit,
      Fields.timerActive]
  · simp [updateStatus, hp, hs, playerNeedsToStart, hb, startTimer, World.emit]
    decide
  · simp [updateStatus, hp, hs, playerNeedsToStart, hb, startTimer, World.emit]

/-- Witness of `updateStatus_starts_playback`: a session, remote Playing, backend opening. -/
theorem updateStatus_starts_playback_witness :
    emitted World.withSession (updateStatus Build.LIBVLC Env.playing World.withSession)
      = [Event.getState, Event.play] ∧
    (emitted World.withSession
      (updateStatus Build.LIBVLC Env.playing World.withSession)).count Event.play = 1 ∧
    (emitted World.withSession
      (updateStatus Build.LIBVLC Env.playing World.withSession)).count Event.stop = 0 ∧
    (updateStatus Build.LIBVLC Env.playing World.withSession).self.timerActive = true ∧
    (updateStatus Build.LIBVLC Env.playing World.withSession).self.playStateChecks = 8 ∧
    (updateStatus Build.LIBVLC Env.playing World.withSession).self.state = MPDState_Playing :=
  updateStatus_starts_playback Env.playing World.withSession (by decide) (by decide) (by decide)

/-- C2: when a session exists and the last observed state is Playing, a remote state of
Paused, Inactive or Stopped makes one call of `updateStatus` issue exactly one stop command
and no play command and set the last observed state to the remote state; in the LIBVLC
build the watchdog is left disarmed (timer not running, `playStateChecks = 0`). -/
theorem updateStatus_stops_playback (b : Build) (env : Env) (w : World)
    (hp : w.self.player ≠ none) (hl : w.self.state = MPDState_Playing)
    (hs : env.status = MPDState_Paused ∨ env.status = MPDState_Inactive ∨
      env.status = MPDState_Stopped) :
    emitted w (updateStatus b env w) = [Event.stop] ∧
    (emitted w (updateStatus b env w)).count Event.stop = 1 ∧
    (emitted w (updateStatus b env w)).count Event.play = 0 ∧
    (updateStatus b env w).self.state = env.status ∧
    (b = Build.LIBVLC → (updateStatus b env w).self.timerActive = false ∧
      (updateStatus b env w).self.playStateChecks = 0) := by
  obtain ⟨p, hp⟩ := Option.ne_none_iff_exists'.mp hp
  have he : emitted w (updateStatus b env w) = [Event.stop] := by
    apply emitted_append
    rcases hs with hs | hs | hs <;> cases b <;>
      simp [updateStatus, hp, hs, hl, playerNeedsToStart, stopTimer, World.emit,
        MPDState_Playing, MPDState_Paused, MPDState_Inactive, MPDState_Stopped]
  rw [he]
  refine ⟨rfl, by decide, by decide, ?_, ?_⟩
  · rcases hs with hs | hs | hs <;> cases b <;>
      simp [updateStatus, hp, hs, hl, playerNeedsToStart, stopTimer, World.emit,
        MPDState_Playing, MPDState_Paused, MPDState_Inactive, MPDState_Stopped]
  · intro hb
    subst hb
    rcases hs with hs | hs | hs <;>
      cases ht : w.self.playStateCheckTimer <;>
      simp [updateStatus, hp, hs, hl, ht, playerNeedsToStart, stopTimer, World.emit,
        Fields.timerActive,
        MPDState_Playing, MPDState_Paused, MPDState_Inactive, MPDState_Stopped]

/-- Witness of `updateStatus_stops_playback`: LIBVLC, session last seen Playing, remote
Paused. -/
theorem updateStatus_stops_playback_witness :
    emitted World.withSession (updateStatus Build.LIBVLC Env.paused World.withSession)
      = [Event.stop] ∧
    (emitted World.withSession
      (updateStatus Build.LIBVLC Env.paused World.withSession)).count Event.stop = 1 ∧
    (emitted World.withSession
      (updateStatus Build.LIBVLC Env.paused World.withSession)).count Event.play = 0 ∧
    (updateStatus Build.LIBVLC Env.paused World.withSession).self.state = Env.paused.status ∧
    (Build.LIBVLC = Build.LIBVLC →
      (updateStatus Build.LIBVLC Env.paused World.withSession).self.timerActive = false ∧
      (updateStatus Build.LIBVLC Env.paused World.withSession).self.playStateChecks = 0) :=
  updateStatus_stops_playback Build.LIBVLC Env.paused World.withSession (by decide) (by decide)
    (Or.inl (by decide))

/-! ## The watchdog -/

theorem constMaxPlayStateChecks_eq : constMaxPlayStateChecks = 8 := by decide

theorem startTimer_armed (w : World) :
    (startTimer w).self.timerActive = true ∧ (startTimer w).self.playStateChecks = 8 ∧
    (startTimer w).self.player = w.self.player ∧ (startTimer w).trace = w.trace := by
  refine ⟨?_, ?_, rfl, rfl⟩
  · simp [startTimer, Fields.timerActive]
  · simp [startTimer, constMaxPlayStateChecks_eq]

/-- One tick against a backend that does not report Playing: the counter goes down by one,
the timer stays running unless the counter reached zero, one play command is issued. -/
theorem checkPlayer_retry (env : Env) (w : World) (hp : w.self.player ≠ none)
    (hb : env.vlcState ≠ libvlc_state_t.libvlc_Playing) :
    ∃ w', checkPlayer Build.LIBVLC env w = some w' ∧
      w'.self.player = w.self.player ∧
      w'.trace = w.trace ++ [Event.getState, Event.play] ∧
      w'.self.playStateChecks = w.self.playStateChecks - 1 ∧
      w'.self.timerActive = (w.self.timerActive && decide (w.self.playStateChecks - 1 ≠ 0)) := by
  obtain ⟨p, hp⟩ := Option.ne_none_iff_exists'.mp hp
  by_cases h0 : w.self.playStateChecks - 1 = 0
  · cases ht : w.self.playStateCheckTimer <;>
      simp [checkPlayer, hp, hb, h0, ht, stopTimer, World.emit, Fields.timerActive,
        eq_comm (a := (0 : Int))]
  · cases ht : w.self.playStateCheckTimer <;>
      simp [checkPlayer, hp, hb, h0, ht, stopTimer, World.emit, Fields.timerActive,
        eq_comm (a := (0 : Int))]

/-- Ticks against a backend that never reports Playing, within the budget. -/
theorem ticks_retry (envs : List Env) :
    ∀ (w : World) (c : Int), w.self.player ≠ none →
      (∀ env ∈ envs, env.vlcState ≠ libvlc_state_t.libvlc_Playing) →
      w.self.timerActive = true → w.self.playStateChecks = c → (envs.length : Int) ≤ c →
      0 < c →
      ∃ w', ticks Build.LIBVLC envs w = some w' ∧
        w'.self.player = w.self.player ∧
        w'.trace = w.trace ++ (List.replicate envs.length [Event.getState, Event.play]).flatten ∧
        w'.self.playStateChecks = c - envs.length ∧
        w'.self.timerActive = decide ((envs.length : Int) < c) := by
  induction envs with
  | nil =>
    intro w c _ _ ht hc _ hpos
    exact ⟨w, rfl, rfl, by simp, by simp [hc], by simp [ht, hpos]⟩
  | cons env rest ih =>
    intro w c hp hb ht hc hlen hpos
    obtain ⟨w1, h1, hp1, htr1, hc1, hta1⟩ :=
      checkPlayer_retry env w hp (hb env (List.mem_cons_self _ _))
    simp only [List.length_cons, Nat.cast_add, Nat.cast_one] at hlen
    by_cases hr : rest = []
    · subst hr
      refine ⟨w1, by simp [ticks, h1], hp1, by simp [htr1, List.replicate], ?_, ?_⟩
      · simp [hc1, hc]
      · rw [hta1, ht, hc]
        simp only [List.length_cons, List.length_nil, Bool.true_and]
        congr 1
        apply propext
        constructor <;> intro h <;> simp at * <;> omega
    · have hrl : 0 < rest.length := List.length_pos.mpr hr
      have hne : w.self.playStateChecks - 1 ≠ 0 := by omega
      have hta1' : w1.self.timerActive = true := by simp [hta1, ht, hne]
      obtain ⟨w2, h2, hp2, htr2, hc2, hta2⟩ :=
        ih w1 (c - 1) (by rw [hp1]; exact hp) (fun e he => hb e (List.mem_cons_of_mem _ he))
          hta1' (by rw [hc1, hc]) (by omega) (by omega)
      refine ⟨w2, by simp [ticks, h1, h2], by rw [hp2, hp1], ?_, ?_, ?_⟩
      · simp [htr2, htr1, List.replicate_succ]
      · simp only [hc2, List.length_cons, Nat.cast_add, Nat.cast_one]
        omega
      · rw [hta2]
        simp only [List.length_cons, Nat.cast_add, Nat.cast_one]
        congr 1
        apply propext
        constructor <;> intro h <;> omega

/-- C5: in the LIBVLC build, from a freshly armed watchdog with a session, against a
backend that never reports Playing: after `k` ticks (`k ≤ 8`) the counter is `8 - k` and
exactly `k` play commands were reissued, one per tick; the timer is still running after
each of the first 7 ticks and is disarmed (timer stopped, `playStateChecks = 0`) after the
8th. The budget `constMaxPlayStateChecks` is 2000 / 250 = 8. -/
theorem watchdog_disarms_after_budget (envs : List Env) (w : World)
    (hp : w.self.player ≠ none) (hlen : envs.length = 8)
    (hb : ∀ env ∈ envs, env.vlcState ≠ libvlc_state_t.libvlc_Playing) :
    constMaxPlayStateChecks = 2000 / 250 ∧ constMaxPlayStateChecks = 8 ∧
    ∀ k : Nat, k ≤ 8 →
      ∃ wk, ticks Build.LIBVLC (envs.take k) (startTimer w) = some wk ∧
        emitted (startTimer w) wk = (List.replicate k [Event.getState, Event.play]).flatten ∧
        (emitted (startTimer w) wk).count Event.play = k ∧
        wk.self.playStateChecks = 8 - k ∧
        (k < 8 → wk.self.timerActive = true) ∧
        (k = 8 → wk.self.timerActive = false ∧ wk.self.playStateChecks = 0) := by
  refine ⟨by decide, by decide, ?_⟩
  intro k hk
  obtain ⟨ha, hc, hpl, _⟩ := startTimer_armed w
  have hkl : (envs.take k).length = k := by simp [hlen, hk]
  obtain ⟨wk, h1, _, htr, hck, hta⟩ :=
    ticks_retry (envs.take k) (startTimer w) 8 (by rw [hpl]; exact hp)
      (fun e he => hb e (List.mem_of_mem_take he)) ha hc (by rw [hkl]; exact_mod_cast hk)
      (by decide)
  rw [hkl] at htr hck hta
  have he : emitted (startTimer w) wk = (List.replicate k [Event.getState, Event.play]).flatten :=
    emitted_append _ _ _ htr
  refine ⟨wk, h1, he, ?_, hck, ?_, ?_⟩
  · rw [he]
    clear htr he hkl h1 hck hta
    induction k with
    | zero => simp
    | succ n ih =>
      simp only [List.replicate_succ, List.flatten_cons, List.count_append]
      rw [ih (by omega)]
      simp [List.count_cons]
      omega
  · intro hlt
    rw [hta]
    simp
    exact_mod_cast hlt
  · intro h8
    subst h8
    refine ⟨?_, by simp [hck]⟩
    rw [hta]
    simp

/-- Witness of `watchdog_disarms_after_budget`: eight answers "opening" after arming the
watchdog of a session. -/
theorem watchdog_disarms_after_budget_witness :
    constMaxPlayStateChecks = 2000 / 250 ∧ constMaxPlayStateChecks = 8 ∧
    ∀ k : Nat, k ≤ 8 →
      ∃ wk, ticks Build.LIBVLC ((List.replicate 8 Env.playing).take k)
          (startTimer World.withSession) = some wk ∧
        emitted (startTimer World.withSession) wk
          = (List.replicate k [Event.getState, Event.play]).flatten ∧
        (emitted (startTimer World.withSession) wk).count Event.play = k ∧
        wk.self.playStateChecks = 8 - k ∧
        (k < 8 → wk.self.timerActive = true) ∧
        (k = 8 → wk.self.timerActive = false ∧ wk.self.playStateChecks = 0) :=
  watchdog_disarms_after_budget (List.replicate 8 Env.playing) World.withSession
    (by decide) (by decide) (by decide)

/-! ## The buffering gate -/

/-- C6: in the QMediaPlayer build, for a progress value in 0..100 and whatever the backend
state: `bufferingProgress` makes no call when the remote transport state is not Playing;
when it is Playing (and the player the signal comes from exists) it issues exactly one play
command if the value is 100 and exactly one pause command if it is below 100. No field of
the object and no setting is changed in any case. -/
theorem bufferingProgress_gate (progress : Int) (env : Env) (w : World)
    (hr : 0 ≤ progress ∧ progress ≤ 100) :
    (env.status ≠ MPDState_Playing → bufferingProgress progress env w = some w) ∧
    (env.status = MPDState_Playing → w.self.player ≠ none → progress = 100 →
      ∃ w', bufferingProgress progress env w = some w' ∧ emitted w w' = [Event.play]) ∧
    (env.status = MPDState_Playing → w.self.player ≠ none → progress < 100 →
      ∃ w', bufferingProgress progress env w = some w' ∧ emitted w w' = [Event.pause]) ∧
    (∀ w', bufferingProgress progress env w = some w' →
      w'.self = w.self ∧ w'.settings = w.settings) := by
  obtain ⟨_, _⟩ := hr
  refine ⟨?_, ?_, ?_, ?_⟩
  · intro hs
    simp [bufferingProgress, hs]
  · intro hs hp h100
    obtain ⟨p, hp⟩ := Option.ne_none_iff_exists'.mp hp
    exact ⟨w.emit [Event.play], by simp [bufferingProgress, hs, hp, h100],
      emitted_append _ _ _ rfl⟩
  · intro hs hp hlt
    obtain ⟨p, hp⟩ := Option.ne_none_iff_exists'.mp hp
    have hne : progress ≠ 100 := by omega
    exact ⟨w.emit [Event.pause], by simp [bufferingProgress, hs, hp, hne],
      emitted_append _ _ _ rfl⟩
  · intro w' h
    unfold bufferingProgress at h
    split at h
    · split at h
      · exact absurd h (by simp)
      · split at h <;>
        · cases h
          exact ⟨rfl, rfl⟩
    · cases h
      exact ⟨rfl, rfl⟩

/-- Witness of `bufferingProgress_gate`: progress 100 on a session while the remote is
Playing. -/
theorem bufferingProgress_gate_witness :
    (0 ≤ (100 : Int) ∧ (100 : Int) ≤ 100) ∧
    ∃ w', bufferingProgress 100 Env.playing World.withSession = some w' ∧
      emitted World.withSession w' = [Event.play] :=
  ⟨by decide,
    (bufferingProgress_gate 100 Env.playing World.withSession (by decide)).2.1
      (by decide) (by decide) rfl⟩

/-! ## Volume -/

/-- C7: when `enabled` is false, whether or not a session exists and whatever
`currentVolume` and `muted` are, `volume()` returns -1, makes no call on the backend and
leaves every field (so `currentVolume`) unchanged. -/
theorem volume_disabled (env : Env) (w : World) (h : w.self.enabled = false) :
    (volume env w).1 = -1 ∧ (volume env w).2 = w ∧ emitted w (volume env w).2 = [] ∧
    (volume env w).2.self.currentVolume = w.self.currentVolume := by
  have hv : volume env w = (-1, w) := by simp [volume, h]
  rw [hv]
  exact ⟨rfl, rfl, by simp [emitted], rfl⟩

/-- Witness of `volume_disabled`: the freshly constructed object. -/
theorem volume_disabled_witness :
    (volume Env.playing (World.new [])).1 = -1 ∧
    (volume Env.playing (World.new [])).2 = World.new [] ∧
    emitted (World.new []) (volume Env.playing (World.new [])).2 = [] ∧
    (volume Env.playing (World.new [])).2.self.currentVolume
      = (World.new []).self.currentVolume :=
  volume_disabled Env.playing (World.new []) rfl

/-- C8, as stated, fails on a muted session: enabled, session present, backend volume
read 70 (non-negative), and yet `volume()` returns the old `currentVolume` 50, leaves
`currentVolume` at 50 and never reads the backend. -/
theorem volume_muted_counterexample :
    World.mutedSession.self.enabled = true ∧ World.mutedSession.self.player ≠ none ∧
    0 ≤ Env.playing.backendVolume ∧
    (volume Env.playing World.mutedSession).1 ≠ Env.playing.backendVolume ∧
    (volume Env.playing World.mutedSession).2.self.currentVolume ≠ Env.playing.backendVolume ∧
    emitted World.mutedSession (volume Env.playing World.mutedSession).2 = [] := by
  decide

/-- C8 (amended): in an enabled state with a session that is not muted, `volume()` reads
the backend volume `r` once: if `r` is negative it returns the previous `currentVolume`
and leaves it unchanged; otherwise it sets `currentVolume` to `r` and returns `r`. In an
enabled state with a muted session it returns `currentVolume` without reading the backend
and changes nothing. -/
theorem volume_enabled_session (env : Env) (w : World)
    (he : w.self.enabled = true) (hp : w.self.player ≠ none) :
    (w.self.muted = false →
      emitted w (volume env w).2 = [Event.getVolume] ∧
      (env.backendVolume < 0 →
        (volume env w).1 = w.self.currentVolume ∧
        (volume env w).2.self.currentVolume = w.self.currentVolume) ∧
      (0 ≤ env.backendVolume →
        (volume env w).1 = env.backendVolume ∧
        (volume env w).2.self.currentVolume = env.backendVolume)) ∧
    (w.self.muted = true → volume env w = (w.self.currentVolume, w)) := by
  obtain ⟨p, hp⟩ := Option.ne_none_iff_exists'.mp hp
  refine ⟨fun hm => ⟨?_, ?_, ?_⟩, fun hm => ?_⟩
  · apply emitted_append
    by_cases hneg : env.backendVolume < 0 <;>
      simp [volume, he, hp, hm, hneg, Fields.isMuted, World.emit]
  · intro hneg
    simp [volume, he, hp, hm, hneg, Fields.isMuted, World.emit]
  · intro hpos
    have hneg : ¬ env.backendVolume < 0 := by omega
    simp [volume, he, hp, hm, hneg, Fields.isMuted, World.emit]
  · simp [volume, he, hp, hm, Fields.isMuted]

/-- Witness of `volume_enabled_session`: an unmuted session, backend volume 70. -/
theorem volume_enabled_session_witness :
    (World.withSession.self.muted = false →
      emitted World.withSession (volume Env.playing World.withSession).2 = [Event.getVolume] ∧
      (Env.playing.backendVolume < 0 →
        (volume Env.playing World.withSession).1 = World.withSession.self.currentVolume ∧
        (volume Env.playing World.withSession).2.self.currentVolume
          = World.withSession.self.currentVolume) ∧
      (0 ≤ Env.playing.backendVolume →
        (volume Env.playing World.withSession).1 = Env.playing.backendVolume ∧
        (volume Env.playing World.withSession).2.self.currentVolume
          = Env.playing.backendVolume)) ∧
    (World.withSession.self.muted = true →
      volume Env.playing World.withSession
        = (World.withSession.self.currentVolume, World.withSession)) :=
  volume_enabled_session Env.playing World.withSession (by decide) (by decide)

/-! ## setEnabled -/

theorem Configuration.lookup_set (c : List (String × Int)) (key : String) (value : Int) :
    (Configuration.set c key value).lookup key = some value := by
  simp [Configuration.set, List.lookup]

/-- C10, as stated, fails: after `setEnabled(false)` on an enabled object with a session
the player still exists (it was stopped, not released). -/
theorem setEnabled_false_keeps_player_counterexample :
    World.withSession.self.enabled = true ∧ World.withSession.self.player ≠ none ∧
    (setEnabled Build.LIBVLC QUrl.ofString false Env.playing World.withSession).self.player
      ≠ none ∧
    (setEnabled Build.QMediaPlayer QUrl.ofString false Env.playing World.withSession).self.player
      ≠ none ∧
    Event.release ∉ emitted World.withSession
      (setEnabled Build.LIBVLC QUrl.ofString false Env.playing World.withSession) := by
  decide

/-- C10 (amended): on an enabled object with a session, `setEnabled(false)` unsubscribes,
writes `currentVolume` to the settings store under key "volume", issues exactly one
backend stop command, sets `enabled` to false and emits one enabled-changed(false)
notification; the session is kept: the same player exists afterwards and no release is
issued. -/
theorem setEnabled_false_with_session (b : Build) (q : String → QUrl) (env : Env) (w : World)
    (he : w.self.enabled = true) (hp : w.self.player ≠ none) :
    emitted w (setEnabled b q false env w)
      = [Event.disconnect, Event.configSet "volume" w.self.currentVolume, Event.stop,
          Event.emitIsEnabled false] ∧
    (setEnabled b q false env w).settings.lookup "volume" = some w.self.currentVolume ∧
    (emitted w (setEnabled b q false env w)).count Event.stop = 1 ∧
    (emitted w (setEnabled b q false env w)).count (Event.emitIsEnabled false) = 1 ∧
    Event.release ∉ emitted w (setEnabled b q false env w) ∧
    (setEnabled b q false env w).self.player = w.self.player ∧
    (setEnabled b q false env w).self.enabled = false := by
  obtain ⟨p, hp⟩ := Option.ne_none_iff_exists'.mp hp
  have he' : emitted w (setEnabled b q false env w)
      = [Event.disconnect, Event.configSet "volume" w.self.currentVolume, Event.stop,
          Event.emitIsEnabled false] := by
    apply emitted_append
    simp [setEnabled, he, hp, save, World.emit]
  rw [he']
  refine ⟨rfl, ?_, ?_, ?_, ?_, ?_, ?_⟩
  · simp [setEnabled, he, hp, save, World.emit, Configuration.lookup_set]
  · simp [List.count_cons]
  · simp [List.count_cons]
  · simp
  · simp [setEnabled, he, hp, save, World.emit]
  · simp [setEnabled, he, hp, save, World.emit]

/-- Witness of `setEnabled_false_with_session`: LIBVLC, the sample session. -/
theorem setEnabled_false_with_session_witness :
    emitted World.withSession
        (setEnabled Build.LIBVLC QUrl.ofString false Env.playing World.withSession)
      = [Event.disconnect, Event.configSet "volume" World.withSession.self.currentVolume,
          Event.stop, Event.emitIsEnabled false] ∧
    (setEnabled Build.LIBVLC QUrl.ofString false Env.playing World.withSession).settings.lookup
      "volume" = some World.withSession.self.currentVolume ∧
    (emitted World.withSession
      (setEnabled Build.LIBVLC QUrl.ofString false Env.playing World.withSession)).count
        Event.stop = 1 ∧
    (emitted World.withSession
      (setEnabled Build.LIBVLC QUrl.ofString false Env.playing World.withSession)).count
        (Event.emitIsEnabled false) = 1 ∧
    Event.release ∉ emitted World.withSession
      (setEnabled Build.LIBVLC QUrl.ofString false Env.playing World.withSession) ∧
    (setEnabled Build.LIBVLC QUrl.ofString false Env.playing World.withSession).self.player
      = World.withSession.self.player ∧
    (setEnabled Build.LIBVLC QUrl.ofString false Env.playing World.withSession).self.enabled
      = false :=
  setEnabled_false_with_session Build.LIBVLC QUrl.ofString Env.playing World.withSession
    (by decide) (by decide)

/-! ## The player across calls -/

@[simp] theorem emit_self (w : World) (es : List Event) : (w.emit es).self = w.self := rfl

@[simp] theorem setVolume_player (vol : Int) (w : World) :
    (setVolume vol w).self.player = w.self.player := by
  unfold setVolume
  split <;> simp_all

@[simp] theorem startTimer_player (w : World) :
    (startTimer w).self.player = w.self.player := rfl

@[simp] theorem stopTimer_player (w : World) :
    (stopTimer w).self.player = w.self.player := rfl

@[simp] theorem volume_player (env : Env) (w : World) :
    (volume env w).2.self.player = w.self.player := by
  cases hp : w.self.player <;> by_cases he : w.self.enabled = true <;>
    by_cases hm : w.self.isMuted = true <;> by_cases hv : env.backendVolume < 0 <;>
    simp [volume, hp, he, hm, hv, World.emit]

@[simp] theorem updateStatus_player (b : Build) (env : Env) (w : World) :
    (updateStatus b env w).self.player = w.self.player := by
  unfold updateStatus
  repeat' split
  all_goals simp_all

theorem checkPlayer_player (b : Build) (env : Env) (w w' : World)
    (h : checkPlayer b env w = some w') : w'.self.player = w.self.player := by
  cases b
  · cases hp : w.self.player <;> by_cases h0 : w.self.playStateChecks - 1 = 0 <;>
      by_cases hv : env.vlcState = libvlc_state_t.libvlc_Playing <;>
      simp [checkPlayer, hp, h0, hv, stopTimer, World.emit, eq_comm (a := (0 : Int))] at h <;>
      subst h <;> simp [hp]
  · simp only [checkPlayer, Option.some.injEq] at h
    rw [← h]

theorem bufferingProgress_player (progress : Int) (env : Env) (w w' : World)
    (h : bufferingProgress progress env w = some w') : w'.self.player = w.self.player := by
  cases hp : w.self.player <;> by_cases hs : env.status = MPDState_Playing <;>
    by_cases h100 : progress = 100 <;>
    simp [bufferingProgress, hp, hs, h100, World.emit] at h <;>
    subst h <;> simp [hp]

theorem toggleMute_player_url (b : Build) (w : World) (p' : Player)
    (h : (toggleMute b w).self.player = some p') :
    ∃ p, w.self.player = some p ∧ p.url = p'.url := by
  unfold toggleMute at h
  split at h
  · rename_i p hp
    simp at h
    exact ⟨p, hp, by rw [← h]⟩
  · exact ⟨p', h, rfl⟩

theorem streamUrl.clear_player (b : Build) (q : String → QUrl) (url : String) (w : World) :
    (streamUrl.clear b q url w).self.player = w.self.player ∨
    (streamUrl.clear b q url w).self.player = none := by
  unfold streamUrl.clear
  split
  · left; rfl
  · split
    · right; rfl
    · dsimp only
      split
      · right; rfl
      · left; rfl

theorem streamUrl.create_player (q : String → QUrl) (url : String) (w : World) (p' : Player)
    (h : (streamUrl.create q url w).self.player = some p') :
    w.self.player = some p' ∨ (p'.url = url ∧ acceptable q url = true) := by
  unfold streamUrl.create at h
  dsimp only at h
  split at h
  · rename_i hc
    rw [setVolume_player] at h
    simp only [emit_self, Option.some.injEq] at h
    right
    refine ⟨by rw [← h], ?_⟩
    simp only [Bool.and_eq_true] at hc
    simp [acceptable, hc.1.1.1, hc.1.1.2, hc.1.2]
  · left; exact h

@[simp] theorem streamUrl.reconcile_player (b : Build) (env : Env) (w : World) :
    (streamUrl.reconcile b env w).self.player = w.self.player := by
  unfold streamUrl.reconcile
  split
  · rename_i hp
    rw [updateStatus_player, hp]
  · rename_i hp
    simp [hp]

/-- After `streamUrl(url)` the player is the one that was there, or a new one for `url`,
which then passed the test of line 178. -/
theorem streamUrl_player (b : Build) (q : String → QUrl) (url : String) (env : Env)
    (w : World) (p' : Player) (h : (streamUrl b q url env w).self.player = some p') :
    w.self.player = some p' ∨ (p'.url = url ∧ acceptable q url = true) := by
  unfold streamUrl at h
  rw [emit_self, streamUrl.reconcile_player] at h
  rcases streamUrl.create_player q url _ p' h with h1 | h1
  · left
    rcases streamUrl.clear_player b q url w with h2 | h2
    · rw [← h2]; exact h1
    · rw [h2] at h1; exact absurd h1 (by simp)
  · right; exact h1

theorem setEnabled_player (b : Build) (q : String → QUrl) (e : Bool) (env : Env)
    (w : World) (p' : Player) (h : (setEnabled b q e env w).self.player = some p') :
    w.self.player = some p' ∨ (p'.url = env.streamUrl ∧ acceptable q env.streamUrl = true) := by
  unfold setEnabled at h
  split at h
  · left; exact h
  · rw [emit_self] at h
    dsimp only at h
    split at h
    · have h' := streamUrl_player b q env.streamUrl env _ p' h
      simpa only [emit_self] using h'
    · left
      split at h
      · rename_i hp
        simp only [emit_self, save] at h hp
        exact h
      · rename_i hp
        simp only [emit_self] at h hp
        exact h

/-- Every call keeps the property that the session's URL passed the test of line 178. -/
theorem step_sessionUrlOk (b : Build) (q : String → QUrl) (c : Call) (env : Env)
    (w w' : World) (hw : SessionUrlOk q w) (h : step b q c env w = some w') :
    SessionUrlOk q w' := by
  intro p' hp'
  cases c with
  | setEnabled e =>
    simp only [step, Option.some.injEq] at h
    subst h
    rcases setEnabled_player b q e env w p' hp' with h1 | h1
    · exact hw p' h1
    · rw [h1.1]; exact h1.2
  | setVolume vol =>
    simp only [step, Option.some.injEq] at h
    subst h
    rw [setVolume_player] at hp'
    exact hw p' hp'
  | volume =>
    simp only [step, Option.some.injEq] at h
    subst h
    rw [volume_player] at hp'
    exact hw p' hp'
  | toggleMute =>
    simp only [step, Option.some.injEq] at h
    subst h
    obtain ⟨p, hp, hu⟩ := toggleMute_player_url b w p' hp'
    rw [← hu]
    exact hw p hp
  | streamUrl url =>
    simp only [step, Option.some.injEq] at h
    subst h
    rcases streamUrl_player b q url env w p' hp' with h1 | h1
    · exact hw p' h1
    · rw [h1.1]; exact h1.2
  | updateStatus =>
    simp only [step, Option.some.injEq] at h
    subst h
    rw [updateStatus_player] at hp'
    exact hw p' hp'
  | bufferingProgress progress =>
    cases b with
    | LIBVLC => simp [step] at h
    | QMediaPlayer =>
      simp only [step] at h
      rw [bufferingProgress_player progress env w w' h] at hp'
      exact hw p' hp'
  | checkPlayer =>
    simp only [step] at h
    rw [checkPlayer_player b env w w' h] at hp'
    exact hw p' hp'
  | startTimer =>
    simp only [step, Option.some.injEq] at h
    subst h
    exact hw p' hp'
  | stopTimer =>
    simp only [step, Option.some.injEq] at h
    subst h
    exact hw p' hp'

/-- In every reachable world the session's URL passed the test of line 178. -/
theorem reachable_sessionUrlOk (b : Build) (q : String → QUrl)
    (allowed : Call → Env → World → Prop) (settings : List (String × Int)) (w : World)
    (h : Reachable b q allowed settings w) : SessionUrlOk q w := by
  induction h with
  | new =>
    intro p hp
    simp [World.new, Fields.new] at hp
  | step c env _ _ hs ih => exact step_sessionUrlOk b q c env _ _ ih hs

/-! ## streamUrl with a URL that is not acceptable -/

theorem streamUrl.create_rejects (q : String → QUrl) (url : String) (w : World)
    (hbad : acceptable q url = false) : streamUrl.create q url w = w := by
  unfold streamUrl.create
  dsimp only
  rw [if_neg]
  intro hc
  simp only [Bool.and_eq_true] at hc
  simp [acceptable, hc.1.1.1, hc.1.1.2, hc.1.2] at hbad

/-- With a URL that is not acceptable, the first block of `streamUrl` gives up the player
of a world whose session URL is acceptable. -/
theorem streamUrl.clear_rejected (b : Build) (q : String → QUrl) (url : String) (w : World)
    (hq : b = Build.QMediaPlayer → QUrlPrintsAcceptable q) (hw : SessionUrlOk q w)
    (hbad : acceptable q url = false) :
    streamUrl.clear b q url w =
      { w with
        self := { w.self with player := none }
        trace := w.trace ++ (if w.self.player.isSome then [Event.stop, Event.release] else []) } := by
  unfold streamUrl.clear
  cases hp : w.self.player with
  | none =>
    simp only [Option.isSome_none, Bool.false_eq_true, if_false, List.append_nil]
    cases w with
    | mk self settings trace =>
      cases self
      simp_all
  | some p =>
    cases b with
    | LIBVLC => simp
    | QMediaPlayer =>
      obtain ⟨he, hpr⟩ := hq rfl p.url (hw p hp)
      have hne : (q p.url).toString ≠ url := by
        intro heq
        rw [heq, hbad] at hpr
        exact absurd hpr (by simp)
      simp [he, hne]

theorem QUrl.ofString_printsAcceptable : QUrlPrintsAcceptable QUrl.ofString := by
  intro s hs
  refine ⟨?_, hs⟩
  simp only [acceptable, QUrl.ofString, Bool.and_eq_true, Bool.not_eq_true'] at hs
  simpa [QUrl.ofString] using hs.1.2.1

/-- C4: in every reachable world, for a URL string that is empty, not valid, or whose
scheme does not start with "http", `streamUrl(url)` creates no backend session, leaves no
session afterwards, never queries the backend's playback state and sets the last observed
state to Inactive: it only gives up the session there was and emits `update()`. (In the
QMediaPlayer build this uses that Qt prints an accepted URL as a string that is accepted
again, `QUrlPrintsAcceptable`.) -/
theorem streamUrl_rejects_url (b : Build) (q : String → QUrl) (settings : List (String × Int))
    (w : World) (url : String) (env : Env)
    (hq : b = Build.QMediaPlayer → QUrlPrintsAcceptable q)
    (hr : Reachable b q anyCall settings w)
    (hbad : url = "" ∨ (q url).isValid = false ∨ startsWith (q url).scheme "http" = false) :
    (∀ u, Event.create u ∉ emitted w (streamUrl b q url env w)) ∧
    (streamUrl b q url env w).self.player = none ∧
    Event.getState ∉ emitted w (streamUrl b q url env w) ∧
    (streamUrl b q url env w).self.state = MPDState_Inactive ∧
    emitted w (streamUrl b q url env w) =
      (if w.self.player.isSome then [Event.stop, Event.release] else []) ++ [Event.emitUpdate] := by
  have hacc : acceptable q url = false := by
    rcases hbad with h | h | h <;> simp [acceptable, h]
  have hw := reachable_sessionUrlOk b q anyCall settings w hr
  have hs : streamUrl b q url env w =
      { w with
        self := { w.self with player := none, state := MPDState_Inactive }
        trace := w.trace ++ ((if w.self.player.isSome then [Event.stop, Event.release] else [])
          ++ [Event.emitUpdate]) } := by
    unfold streamUrl
    rw [streamUrl.clear_rejected b q url w hq hw hacc, streamUrl.create_rejects q url _ hacc]
    simp [streamUrl.reconcile, World.emit]
  have he : emitted w (streamUrl b q url env w) =
      (if w.self.player.isSome then [Event.stop, Event.release] else [])
        ++ [Event.emitUpdate] := by
    apply emitted_append
    rw [hs]
  rw [he, hs]
  refine ⟨?_, rfl, ?_, rfl, rfl⟩
  · intro u
    split <;> simp
  · split <;> simp

/-- Witness of `streamUrl_rejects_url`: QMediaPlayer build, the world reached by enabling
the object while the remote advertises `http://stream.example/radio`, then a URL of
scheme `rtsp`. -/
theorem streamUrl_rejects_url_witness :
    (∀ u, Event.create u ∉
      emitted (setEnabled Build.QMediaPlayer QUrl.ofString true Env.playing (World.new []))
        (streamUrl Build.QMediaPlayer QUrl.ofString "rtsp://stream.example/radio" Env.playing
          (setEnabled Build.QMediaPlayer QUrl.ofString true Env.playing (World.new [])))) ∧
    (streamUrl Build.QMediaPlayer QUrl.ofString "rtsp://stream.example/radio" Env.playing
      (setEnabled Build.QMediaPlayer QUrl.ofString true Env.playing (World.new []))).self.player
      = none ∧
    Event.getState ∉
      emitted (setEnabled Build.QMediaPlayer QUrl.ofString true Env.playing (World.new []))
        (streamUrl Build.QMediaPlayer QUrl.ofString "rtsp://stream.example/radio" Env.playing
          (setEnabled Build.QMediaPlayer QUrl.ofString true Env.playing (World.new []))) ∧
    (streamUrl Build.QMediaPlayer QUrl.ofString "rtsp://stream.example/radio" Env.playing
      (setEnabled Build.QMediaPlayer QUrl.ofString true Env.playing (World.new []))).self.state
      = MPDState_Inactive ∧
    emitted (setEnabled Build.QMediaPlayer QUrl.ofString true Env.playing (World.new []))
        (streamUrl Build.QMediaPlayer QUrl.ofString "rtsp://stream.example/radio" Env.playing
          (setEnabled Build.QMediaPlayer QUrl.ofString true Env.playing (World.new [])))
      = (if (setEnabled Build.QMediaPlayer QUrl.ofString true Env.playing
            (World.new [])).self.player.isSome
          then [Event.stop, Event.release] else []) ++ [Event.emitUpdate] :=
  streamUrl_rejects_url Build.QMediaPlayer QUrl.ofString [] _ "rtsp://stream.example/radio"
    Env.playing (fun _ => QUrl.ofString_printsAcceptable)
    (Reachable.step (Call.setEnabled true) Env.playing Reachable.new trivial rfl)
    (Or.inr (Or.inr (by decide)))

/-- The world used in the witness above does have a session. -/
theorem setEnabled_creates_session_example :
    (setEnabled Build.QMediaPlayer QUrl.ofString true Env.playing (World.new [])).self.player
      = some { url := "http://stream.example/radio", audioMuted := false } := by
  decide

/-! ## streamUrl called twice with the same URL -/

/-- C3, as stated, fails in both builds. LIBVLC: after `streamUrl(u)` on a new object, the
second `streamUrl(u)` stops and releases the player and creates a new one. QMediaPlayer:
with the remote Paused, the second `streamUrl(u)` keeps the player but issues a backend
stop (the forced `updateStatus` of lines 202-203). -/
theorem streamUrl_twice_counterexample :
    emitted
        (streamUrl Build.LIBVLC QUrl.ofString "http://stream.example/radio" Env.playing
          (World.new []))
        (streamUrl Build.LIBVLC QUrl.ofString "http://stream.example/radio" Env.playing
          (streamUrl Build.LIBVLC QUrl.ofString "http://stream.example/radio" Env.playing
            (World.new [])))
      = [Event.stop, Event.release, Event.create "http://stream.example/radio",
          Event.configGet "volume", Event.setVolume 50, Event.emitUpdate, Event.getState,
          Event.play, Event.emitUpdate] ∧
    emitted
        (streamUrl Build.QMediaPlayer QUrl.ofString "http://stream.example/radio" Env.paused
          (World.new []))
        (streamUrl Build.QMediaPlayer QUrl.ofString "http://stream.example/radio" Env.paused
          (streamUrl Build.QMediaPlayer QUrl.ofString "http://stream.example/radio" Env.paused
            (World.new [])))
      = [Event.stop, Event.emitUpdate] := by
  decide

theorem streamUrl.clear_qt_player (q : String → QUrl) (url : String) (w : World) (p : Player)
    (h : (streamUrl.clear Build.QMediaPlayer q url w).self.player = some p) :
    w.self.player = some p ∧ ((q p.url).isEmpty = true ∨ (q p.url).toString = url) := by
  unfold streamUrl.clear at h
  split at h
  · rename_i hp
    rw [hp] at h
    exact absurd h (by simp)
  · rename_i p0 hp
    dsimp only at h
    split at h
    · exact absurd h (by simp)
    · rename_i hc
      rw [hp] at h
      cases h
      refine ⟨hp, ?_⟩
      by_cases he : (q p.url).isEmpty = true
      · left; exact he
      · right
        by_contra hne
        exact hc (by simp [he, hne])

theorem streamUrl.clear_qt_keeps (q : String → QUrl) (url : String) (w : World)
    (h : ∀ p, w.self.player = some p → (q p.url).isEmpty = true ∨ (q p.url).toString = url) :
    streamUrl.clear Build.QMediaPlayer q url w = w := by
  unfold streamUrl.clear
  split
  · rfl
  · rename_i p hp
    dsimp only
    rw [if_neg]
    rcases h p hp with h1 | h1 <;> simp [h1]

theorem streamUrl.create_keeps (q : String → QUrl) (url : String) (w : World)
    (h : w.self.player ≠ none) : streamUrl.create q url w = w := by
  obtain ⟨p, hp⟩ := Option.ne_none_iff_exists'.mp h
  unfold streamUrl.create
  dsimp only
  rw [if_neg]
  simp [hp]

/-- When the second block of `streamUrl` leaves no player, the URL was not acceptable. -/
theorem streamUrl.create_none (q : String → QUrl) (url : String) (w : World)
    (h : (streamUrl.create q url w).self.player = none) : acceptable q url = false := by
  by_contra hacc
  simp only [Bool.not_eq_false] at hacc
  cases hp : w.self.player with
  | some p =>
    rw [streamUrl.create_keeps q url w (by simp [hp]), hp] at h
    exact absurd h (by simp)
  | none =>
    simp only [acceptable, Bool.and_eq_true] at hacc
    unfold streamUrl.create at h
    dsimp only at h
    rw [if_pos (by simp [hacc.1.1, hacc.1.2, hacc.2, hp]), setVolume_player] at h
    simp at h

/-- The calls of one `updateStatus`: never a release or a create; a stop exactly when there
is a player, the remote state is Paused, Inactive or Stopped and differs from the last
observed state. -/
theorem updateStatus_emitted (b : Build) (env : Env) (w : World) :
    ∃ es, (updateStatus b env w).trace = w.trace ++ es ∧
      Event.release ∉ es ∧ (∀ u, Event.create u ∉ es) ∧
      (Event.stop ∈ es ↔ w.self.player ≠ none ∧ env.status ≠ w.self.state ∧
        (env.status = MPDState_Paused ∨ env.status = MPDState_Inactive ∨
          env.status = MPDState_Stopped)) := by
  cases hp : w.self.player with
  | none => exact ⟨[], by simp [updateStatus, hp], by simp, by simp, by simp⟩
  | some p =>
    by_cases h1 : env.status = MPDState_Playing
    · by_cases hn : playerNeedsToStart b env = true
      · cases b
        · exact ⟨[Event.getState, Event.play],
            by simp [updateStatus, hp, h1, hn, startTimer, World.emit], by simp, by simp,
            by simp [h1, MPDState_Playing, MPDState_Paused, MPDState_Inactive,
              MPDState_Stopped]⟩
        · exact ⟨[Event.getState, Event.setSource p.url],
            by simp [updateStatus, hp, h1, hn, World.emit], by simp, by simp,
            by simp [h1, MPDState_Playing, MPDState_Paused, MPDState_Inactive,
              MPDState_Stopped]⟩
      · refine ⟨[Event.getState], ?_, by simp, by simp,
          by simp [h1, MPDState_Playing, MPDState_Paused, MPDState_Inactive,
            MPDState_Stopped]⟩
        by_cases hst : MPDState_Playing = w.self.state <;>
          simp [updateStatus, hp, h1, hn, hst, World.emit]
    · have hn : playerNeedsToStart b env = false := by simp [playerNeedsToStart, h1]
      by_cases hst : env.status = w.self.state
      · have h1' : ¬ w.self.state = MPDState_Playing := fun h => h1 (hst.trans h)
        exact ⟨[], by simp [updateStatus, hp, h1', hn, hst], by simp, by simp, by simp [hst]⟩
      · by_cases h2 : env.status = MPDState_Paused ∨ env.status = MPDState_Inactive ∨
            env.status = MPDState_Stopped
        · refine ⟨[Event.stop], ?_, by simp, by simp, by simp [hst, h2]⟩
          cases b <;> rcases h2 with h2 | h2 | h2 <;>
            simp [updateStatus, hp, h1, hn, hst, h2, stopTimer, World.emit] <;>
            simp_all [MPDState_Playing, MPDState_Paused, MPDState_Inactive, MPDState_Stopped]
        · refine ⟨[], ?_, by simp, by simp, by simp [h2]⟩
          simp only [not_or] at h2
          cases b <;>
            simp [updateStatus, hp, h1, hn, hst, h2.1, h2.2.1, h2.2.2, stopTimer]

/-- C3 (amended): in the QMediaPlayer build, for every state and every URL `u` that `QUrl`
prints back as written, calling `streamUrl(u)` and then `streamUrl(u)` again: the second
call keeps the player as it is, releases nothing and creates no new backend session; the
only backend stop it can issue is the one of the forced `updateStatus`, issued exactly
when a session exists and the remote transport state is Paused, Inactive or Stopped. -/
theorem streamUrl_twice_qmediaplayer (q : String → QUrl) (url : String) (env env' : Env)
    (w : World) (hprint : (q url).toString = url) :
    (streamUrl Build.QMediaPlayer q url env' (streamUrl Build.QMediaPlayer q url env w)).self.player
      = (streamUrl Build.QMediaPlayer q url env w).self.player ∧
    Event.release ∉ emitted (streamUrl Build.QMediaPlayer q url env w)
      (streamUrl Build.QMediaPlayer q url env' (streamUrl Build.QMediaPlayer q url env w)) ∧
    (∀ u, Event.create u ∉ emitted (streamUrl Build.QMediaPlayer q url env w)
      (streamUrl Build.QMediaPlayer q url env' (streamUrl Build.QMediaPlayer q url env w))) ∧
    (Event.stop ∈ emitted (streamUrl Build.QMediaPlayer q url env w)
        (streamUrl Build.QMediaPlayer q url env' (streamUrl Build.QMediaPlayer q url env w)) ↔
      (streamUrl Build.QMediaPlayer q url env w).self.player ≠ none ∧
        (env'.status = MPDState_Paused ∨ env'.status = MPDState_Inactive ∨
          env'.status = MPDState_Stopped)) := by
  have hpl : (streamUrl Build.QMediaPlayer q url env w).self.player
      = (streamUrl.create q url (streamUrl.clear Build.QMediaPlayer q url w)).self.player := by
    unfold streamUrl
    rw [emit_self, streamUrl.reconcile_player]
  generalize hw1 : streamUrl Build.QMediaPlayer q url env w = w1 at hpl ⊢
  have hA : ∀ p, w1.self.player = some p →
      (q p.url).isEmpty = true ∨ (q p.url).toString = url := by
    intro p hp
    rw [hpl] at hp
    rcases streamUrl.create_player q url _ p hp with h | h
    · exact (streamUrl.clear_qt_player q url w p h).2
    · right; rw [h.1]; exact hprint
  have hclear : streamUrl.clear Build.QMediaPlayer q url w1 = w1 :=
    streamUrl.clear_qt_keeps q url w1 hA
  have hcreate : streamUrl.create q url w1 = w1 := by
    cases hp : w1.self.player with
    | some p => exact streamUrl.create_keeps q url w1 (by simp [hp])
    | none =>
      rw [hpl] at hp
      exact streamUrl.create_rejects q url w1 (streamUrl.create_none q url _ hp)
  have h2 : streamUrl Build.QMediaPlayer q url env' w1
      = (streamUrl.reconcile Build.QMediaPlayer env' w1).emit [Event.emitUpdate] := by
    unfold streamUrl
    rw [hclear, hcreate]
  rw [h2]
  refine ⟨by rw [emit_self, streamUrl.reconcile_player], ?_⟩
  cases hp : w1.self.player with
  | none =>
    have he : emitted w1 ((streamUrl.reconcile Build.QMediaPlayer env' w1).emit
        [Event.emitUpdate]) = [Event.emitUpdate] := by
      apply emitted_append
      simp [streamUrl.reconcile, hp, World.emit]
    rw [he]
    simp
  | some p =>
    obtain ⟨es, htr, hrel, hcr, hstop⟩ := updateStatus_emitted Build.QMediaPlayer env'
      { w1 with self := { w1.self with state := 0xFFFF } }
    have hrec : streamUrl.reconcile Build.QMediaPlayer env' w1
        = updateStatus Build.QMediaPlayer env'
            { w1 with self := { w1.self with state := 0xFFFF } } := by
      unfold streamUrl.reconcile
      split
      · rfl
      · rename_i hn
        rw [hp] at hn
        exact absurd hn (by simp)
    dsimp only at htr hstop
    have he : emitted w1 ((streamUrl.reconcile Build.QMediaPlayer env' w1).emit
        [Event.emitUpdate]) = es ++ [Event.emitUpdate] := by
      apply emitted_append
      rw [hrec]
      simp only [World.emit, htr, List.append_assoc]
    rw [he]
    refine ⟨by simp [hrel], fun u => by simp [hcr u], ?_⟩
    simp only [List.mem_append, List.mem_singleton, reduceCtorEq, or_false, hstop, hp]
    constructor
    · intro h
      exact ⟨by simp, h.2.2⟩
    · intro h
      refine ⟨by simp, ?_, h.2⟩
      rcases h.2 with h | h | h <;>
        simp [h, MPDState_Paused, MPDState_Inactive, MPDState_Stopped]

/-- Witness of `streamUrl_twice_qmediaplayer`: a new object, `http://stream.example/radio`,
remote Paused. -/
theorem streamUrl_twice_qmediaplayer_witness :
    ((QUrl.ofString "http://stream.example/radio").toString = "http://stream.example/radio") ∧
    (Event.stop ∈ emitted
        (streamUrl Build.QMediaPlayer QUrl.ofString "http://stream.example/radio" Env.paused
          (World.new []))
        (streamUrl Build.QMediaPlayer QUrl.ofString "http://stream.example/radio" Env.paused
          (streamUrl Build.QMediaPlayer QUrl.ofString "http://stream.example/radio" Env.paused
            (World.new []))) ↔
      (streamUrl Build.QMediaPlayer QUrl.ofString "http://stream.example/radio" Env.paused
          (World.new [])).self.player ≠ none ∧
        (Env.paused.status = MPDState_Paused ∨ Env.paused.status = MPDState_Inactive ∨
          Env.paused.status = MPDState_Stopped)) :=
  ⟨rfl,
    (streamUrl_twice_qmediaplayer QUrl.ofString "http://stream.example/radio" Env.paused
      Env.paused (World.new []) rfl).2.2.2⟩

/-! ## The volume with no session -/

/-- C9, as stated, fails: after enabling (a session is created), `setVolume(500)` and
`streamUrl("")` the object is enabled without a session and `volume()` returns 500, the
value of `currentVolume`, which is outside 0..100. -/
theorem volume_range_counterexample :
    Reachable Build.LIBVLC QUrl.ofString volumeCalls [] World.loudNoSession ∧
    World.loudNoSession.self.enabled = true ∧ World.loudNoSession.self.player = none ∧
    (volume Env.playing World.loudNoSession).1 = World.loudNoSession.self.currentVolume ∧
    (volume Env.playing World.loudNoSession).1 = 500 ∧
    ¬ (0 ≤ (volume Env.playing World.loudNoSession).1 ∧
      (volume Env.playing World.loudNoSession).1 ≤ 100) := by
  refine ⟨?_, by decide, by decide, by decide, by decide, by decide⟩
  exact Reachable.step (Call.streamUrl "") Env.playing
    (Reachable.step (Call.setVolume 500) Env.playing
      (Reachable.step (Call.setEnabled true) Env.playing Reachable.new trivial rfl)
      trivial rfl)
    trivial rfl

theorem Configuration.get_inRange (c : List (String × Int)) (dflt : Int)
    (hc : SettingsInRange c) (hd : 0 ≤ dflt ∧ dflt ≤ 100) :
    0 ≤ Configuration.get c "volume" dflt ∧ Configuration.get c "volume" dflt ≤ 100 := by
  unfold Configuration.get
  split
  · rename_i v hv
    exact hc v hv
  · exact hd

theorem updateStatus_volume (b : Build) (env : Env) (w : World) :
    (updateStatus b env w).self.currentVolume = w.self.currentVolume ∧
    (updateStatus b env w).settings = w.settings := by
  unfold updateStatus
  repeat' split
  all_goals simp [startTimer, stopTimer, World.emit]

theorem streamUrl.clear_volume (b : Build) (q : String → QUrl) (url : String) (w : World) :
    (streamUrl.clear b q url w).self.currentVolume = w.self.currentVolume ∧
    (streamUrl.clear b q url w).settings = w.settings := by
  unfold streamUrl.clear
  split
  · exact ⟨rfl, rfl⟩
  · split
    · exact ⟨rfl, rfl⟩
    · dsimp only
      split <;> exact ⟨rfl, rfl⟩

theorem streamUrl.reconcile_volume (b : Build) (env : Env) (w : World) :
    (streamUrl.reconcile b env w).self.currentVolume = w.self.currentVolume ∧
    (streamUrl.reconcile b env w).settings = w.settings := by
  unfold streamUrl.reconcile
  split
  · exact updateStatus_volume b env _
  · exact ⟨rfl, rfl⟩

theorem streamUrl.create_volumeInRange (q : String → QUrl) (url : String) (w : World)
    (hw : VolumeInRange w) : VolumeInRange (streamUrl.create q url w) := by
  unfold streamUrl.create
  dsimp only
  split
  · have hg := Configuration.get_inRange w.settings w.self.currentVolume hw.2 hw.1
    refine ⟨?_, ?_⟩
    · simpa [setVolume, World.emit] using hg
    · simpa [setVolume, World.emit] using hw.2
  · exact hw

theorem streamUrl_volumeInRange (b : Build) (q : String → QUrl) (url : String) (env : Env)
    (w : World) (hw : VolumeInRange w) : VolumeInRange (streamUrl b q url env w) := by
  have h1 : VolumeInRange (streamUrl.clear b q url w) := by
    obtain ⟨hv, hs⟩ := streamUrl.clear_volume b q url w
    unfold VolumeInRange
    rw [hv, hs]
    exact hw
  have h2 := streamUrl.create_volumeInRange q url _ h1
  obtain ⟨hv, hs⟩ := streamUrl.reconcile_volume b env
    (streamUrl.create q url (streamUrl.clear b q url w))
  unfold streamUrl VolumeInRange
  rw [emit_self]
  show (0 ≤ _ ∧ _ ≤ 100) ∧ SettingsInRange (streamUrl.reconcile b env _).settings
  rw [hv, hs]
  exact h2

theorem Configuration.set_inRange (c : List (String × Int)) (v : Int)
    (hv : 0 ≤ v ∧ v ≤ 100) : SettingsInRange (Configuration.set c "volume" v) := by
  intro v' h
  rw [Configuration.lookup_set] at h
  cases h
  exact hv

theorem setEnabled_volumeInRange (b : Build) (q : String → QUrl) (e : Bool) (env : Env)
    (w : World) (hw : VolumeInRange w) : VolumeInRange (setEnabled b q e env w) := by
  unfold setEnabled
  split
  · exact hw
  · dsimp only
    split
    · exact streamUrl_volumeInRange b q env.streamUrl env _ hw
    · split
      · exact ⟨hw.1, Configuration.set_inRange w.settings w.self.currentVolume hw.1⟩
      · exact hw

/-- Every call of `boundedVolumeCalls` keeps `currentVolume` and the stored volume in
0..100. -/
theorem step_volumeInRange (b : Build) (q : String → QUrl) (c : Call) (env : Env)
    (w w' : World) (hw : VolumeInRange w) (ha : boundedVolumeCalls c env w)
    (h : step b q c env w = some w') : VolumeInRange w' := by
  cases c with
  | setEnabled e =>
    simp only [step, Option.some.injEq] at h
    subst h
    exact setEnabled_volumeInRange b q e env w hw
  | setVolume vol =>
    simp only [step, Option.some.injEq] at h
    subst h
    simp only [boundedVolumeCalls] at ha
    unfold setVolume
    split
    · exact ⟨ha, hw.2⟩
    · exact hw
  | volume =>
    simp only [step, Option.some.injEq] at h
    subst h
    simp only [boundedVolumeCalls] at ha
    unfold volume
    split
    · exact hw
    · split
      · split
        · dsimp only
          split
          · exact hw
          · rename_i hneg
            exact ⟨⟨Int.not_lt.mp hneg, ha⟩, hw.2⟩
        · exact hw
      · exact hw
  | toggleMute =>
    simp only [step, Option.some.injEq] at h
    subst h
    unfold toggleMute
    split
    · exact hw
    · exact hw
  | streamUrl url =>
    simp only [step, Option.some.injEq] at h
    subst h
    exact streamUrl_volumeInRange b q url env w hw
  | updateStatus =>
    simp only [step, Option.some.injEq] at h
    subst h
    obtain ⟨hv, hs⟩ := updateStatus_volume b env w
    unfold VolumeInRange
    rw [hv, hs]
    exact hw
  | bufferingProgress progress => exact absurd ha (by simp [boundedVolumeCalls, volumeCalls])
  | checkPlayer => exact absurd ha (by simp [boundedVolumeCalls, volumeCalls])
  | startTimer => exact absurd ha (by simp [boundedVolumeCalls, volumeCalls])
  | stopTimer => exact absurd ha (by simp [boundedVolumeCalls, volumeCalls])

theorem reachable_volumeInRange (b : Build) (q : String → QUrl)
    (settings : List (String × Int)) (w : World) (hs : SettingsInRange settings)
    (h : Reachable b q boundedVolumeCalls settings w) : VolumeInRange w := by
  induction h with
  | new => exact ⟨by simp [World.new, Fields.new], hs⟩
  | step c env _ ha hst ih => exact step_volumeInRange b q c env _ _ ih ha hst

/-- C9 (amended): in every state (so in every state reachable from the initial state by
`setEnabled`, `setVolume`, `volume`, `toggleMute`, `streamUrl` and `updateStatus` calls
with arbitrary arguments and backend answers), if `enabled` is true and no session exists
then `volume()` returns `currentVolume` and changes nothing. That value lies in 0..100
when the state was reached with the stored volume and every `setVolume` argument in 0..100
and no backend volume read above 100. -/
theorem volume_no_session (b : Build) (q : String → QUrl) (settings : List (String × Int))
    (env : Env) (w : World)
    (he : w.self.enabled = true) (hp : w.self.player = none) :
    (volume env w).1 = w.self.currentVolume ∧ (volume env w).2 = w ∧
    (SettingsInRange settings → Reachable b q boundedVolumeCalls settings w →
      0 ≤ (volume env w).1 ∧ (volume env w).1 ≤ 100) := by
  have hv : volume env w = (w.self.currentVolume, w) := by simp [volume, he, hp]
  rw [hv]
  exact ⟨rfl, rfl, fun hs hb => (reachable_volumeInRange b q settings w hs hb).1⟩

theorem World.quietNoSession_reachable (allowed : Call → Env → World → Prop)
    (h1 : ∀ env w, allowed (Call.setEnabled true) env w)
    (h2 : ∀ env w, allowed (Call.setVolume 80) env w)
    (h3 : ∀ env w, allowed (Call.streamUrl "") env w) :
    Reachable Build.LIBVLC QUrl.ofString allowed [("volume", 30)] World.quietNoSession :=
  Reachable.step (Call.streamUrl "") Env.playing
    (Reachable.step (Call.setVolume 80) Env.playing
      (Reachable.step (Call.setEnabled true) Env.playing Reachable.new (h1 _ _) rfl)
      (h2 _ _) rfl)
    (h3 _ _) rfl

/-- Witness of `volume_no_session`: stored volume 30, enable, `setVolume(80)`,
`streamUrl("")`; `volume()` then returns 80. -/
theorem volume_no_session_witness :
    World.quietNoSession.self.enabled = true ∧ World.quietNoSession.self.player = none ∧
    (volume Env.playing World.quietNoSession).1 = 80 ∧
    (volume Env.playing World.quietNoSession).1 = World.quietNoSession.self.currentVolume ∧
    0 ≤ (volume Env.playing World.quietNoSession).1 ∧
    (volume Env.playing World.quietNoSession).1 ≤ 100 :=
  have h := volume_no_session Build.LIBVLC QUrl.ofString [("volume", 30)] Env.playing
    World.quietNoSession (by decide) (by decide)
  ⟨by decide, by decide, by decide, h.1,
    h.2.2 (by intro v hv; simp [List.lookup] at hv; omega)
      (World.quietNoSession_reachable boundedVolumeCalls (fun _ _ => trivial)
        (fun _ _ => by simp [boundedVolumeCalls]) (fun _ _ => trivial))⟩

/-! ## setVolume -/

/-- C12: for every integer `v`: with no session `setVolume(v)` changes no field, makes no
call on the backend and emits nothing; with a session it sets `currentVolume` to `v`,
issues exactly one set-volume(`v`) command and exactly one `update()` notification, and
leaves `enabled`, `muted`, the last observed state, the watchdog (timer and counter), the
player and the settings unchanged. -/
theorem setVolume_frame (vol : Int) (w : World) :
    (w.self.player = none → setVolume vol w = w ∧ emitted w (setVolume vol w) = []) ∧
    (w.self.player ≠ none →
      (setVolume vol w).self = { w.self with currentVolume := vol } ∧
      (setVolume vol w).self.currentVolume = vol ∧
      emitted w (setVolume vol w) = [Event.setVolume vol, Event.emitUpdate] ∧
      (emitted w (setVolume vol w)).count (Event.setVolume vol) = 1 ∧
      (emitted w (setVolume vol w)).count Event.emitUpdate = 1 ∧
      (setVolume vol w).self.enabled = w.self.enabled ∧
      (setVolume vol w).self.muted = w.self.muted ∧
      (setVolume vol w).self.state = w.self.state ∧
      (setVolume vol w).self.playStateChecks = w.self.playStateChecks ∧
      (setVolume vol w).self.playStateCheckTimer = w.self.playStateCheckTimer ∧
      (setVolume vol w).settings = w.settings) := by
  constructor
  · intro hp
    have h : setVolume vol w = w := by simp [setVolume, hp]
    rw [h]
    exact ⟨rfl, by simp [emitted]⟩
  · intro hp
    obtain ⟨p, hp⟩ := Option.ne_none_iff_exists'.mp hp
    have h : setVolume vol w =
        { w with
          self := { w.self with currentVolume := vol }
          trace := w.trace ++ [Event.setVolume vol, Event.emitUpdate] } := by
      simp [setVolume, hp]
    have he : emitted w (setVolume vol w) = [Event.setVolume vol, Event.emitUpdate] :=
      emitted_append _ _ _ (by rw [h])
    rw [he, h]
    refine ⟨rfl, rfl, rfl, ?_, ?_, rfl, rfl, rfl, rfl, rfl, rfl⟩
    · simp [List.count_cons]
    · simp [List.count_cons]

/-- Witness of `setVolume_frame`: `setVolume(30)` on the sample session. -/
theorem setVolume_frame_witness :
    World.withSession.self.player ≠ none ∧
    (setVolume 30 World.withSession).self.currentVolume = 30 ∧
    emitted World.withSession (setVolume 30 World.withSession)
      = [Event.setVolume 30, Event.emitUpdate] :=
  ⟨by decide,
    ((setVolume_frame 30 World.withSession).2 (by decide)).2.1,
    ((setVolume_frame 30 World.withSession).2 (by decide)).2.2.1⟩

/-! ## updateStatus: the short-circuit -/

/-- C17: `updateStatus` does nothing at all when no session exists. When a session
exists, the remote transport state equals the last observed state and
`playerNeedsToStart` is false, it issues no backend command and changes no field (last
observed state, watchdog and all others) and no setting; the only call it makes is the
playback-state query of lines 239/244, and only when the remote state is Playing. -/
theorem updateStatus_noop (b : Build) (env : Env) (w : World) :
    (w.self.player = none → updateStatus b env w = w) ∧
    (w.self.player ≠ none → env.status = w.self.state → playerNeedsToStart b env = false →
      (updateStatus b env w).self = w.self ∧
      (updateStatus b env w).settings = w.settings ∧
      emitted w (updateStatus b env w)
        = (if env.status = MPDState_Playing then [Event.getState] else []) ∧
      (∀ e ∈ emitted w (updateStatus b env w), e = Event.getState)) := by
  constructor
  · intro hp
    simp [updateStatus, hp]
  · intro hp hst hn
    obtain ⟨p, hp⟩ := Option.ne_none_iff_exists'.mp hp
    have h : updateStatus b env w =
        (if env.status = MPDState_Playing then w.emit [Event.getState] else w) := by
      simp [updateStatus, hp, hn, ← hst]
    have he : emitted w (updateStatus b env w)
        = (if env.status = MPDState_Playing then [Event.getState] else []) := by
      apply emitted_append
      rw [h]
      split <;> simp [World.emit]
    rw [he, h]
    refine ⟨?_, ?_, rfl, ?_⟩
    · split <;> rfl
    · split <;> rfl
    · intro e hmem
      split at hmem <;> simp at hmem
      exact hmem

/-- Witness of `updateStatus_noop`: the sample session was last seen Playing; the remote
is Playing and the backend reports Playing. -/
theorem updateStatus_noop_witness :
    (updateStatus Build.LIBVLC { Env.playing with vlcState := libvlc_state_t.libvlc_Playing }
      World.withSession).self = World.withSession.self ∧
    emitted World.withSession
      (updateStatus Build.LIBVLC { Env.playing with vlcState := libvlc_state_t.libvlc_Playing }
        World.withSession) = [Event.getState] :=
  have h := (updateStatus_noop Build.LIBVLC
    { Env.playing with vlcState := libvlc_state_t.libvlc_Playing } World.withSession).2
      (by decide) (by decide) (by decide)
  ⟨h.1, h.2.2.1⟩

/-! ## updateStatus: the dispatch -/

/-- With a session, the last observed state after `updateStatus` is the remote state,
whether or not the short-circuit of line 247 was taken. -/
theorem updateStatus_state (b : Build) (env : Env) (w : World) (hp : w.self.player ≠ none) :
    (updateStatus b env w).self.state = env.status := by
  obtain ⟨p, hp⟩ := Option.ne_none_iff_exists'.mp hp
  by_cases hst : env.status = w.self.state
  · by_cases h1 : env.status = MPDState_Playing <;>
      by_cases hn : playerNeedsToStart b env = true <;>
      by_cases h2 : (env.status == MPDState_Paused || env.status == MPDState_Inactive
          || env.status == MPDState_Stopped) = true <;>
      cases b <;>
      simp [updateStatus, hp, h1, hn, h2, World.emit, startTimer, stopTimer, ← hst]
  · by_cases h1 : env.status = MPDState_Playing <;>
      by_cases hn : playerNeedsToStart b env = true <;>
      by_cases h2 : (env.status == MPDState_Paused || env.status == MPDState_Inactive
          || env.status == MPDState_Stopped) = true <;>
      cases b <;>
      simp [updateStatus, hp, h1, hn, h2, World.emit, startTimer, stopTimer, hst] <;>
      split <;> simp_all

/-- With a session, a remote state of Paused, Inactive or Stopped that differs from the
last observed state makes `updateStatus` issue one stop and nothing else. -/
theorem updateStatus_stop_trace (b : Build) (env : Env) (w : World)
    (hp : w.self.player ≠ none) (hne : env.status ≠ w.self.state)
    (hs : env.status = MPDState_Paused ∨ env.status = MPDState_Inactive ∨
      env.status = MPDState_Stopped) :
    (updateStatus b env w).trace = w.trace ++ [Event.stop] := by
  obtain ⟨p, hp⟩ := Option.ne_none_iff_exists'.mp hp
  have h1 : env.status ≠ MPDState_Playing := by
    rcases hs with h | h | h <;> rw [h] <;> decide
  have hn : playerNeedsToStart b env = false := by simp [playerNeedsToStart, h1]
  have h2 : (env.status == MPDState_Paused || env.status == MPDState_Inactive
      || env.status == MPDState_Stopped) = true := by
    rcases hs with h | h | h <;> simp [h]
  cases b <;> simp [updateStatus, hp, hne, h1, hn, h2, World.emit, stopTimer]

/-- With a session, the start of lines 255-265 is issued exactly when `playerNeedsToStart`
holds: a play command in the LIBVLC build, a `setSource` of the bound URL in the
QMediaPlayer build. -/
theorem updateStatus_start_trace (b : Build) (env : Env) (w : World) (p : Player)
    (hp : w.self.player = some p) :
    (playerNeedsToStart b env = true →
      (updateStatus b env w).trace = w.trace ++
        [Event.getState,
          match b with
          | Build.LIBVLC => Event.play
          | Build.QMediaPlayer => Event.setSource p.url]) ∧
    (playerNeedsToStart b env = false →
      ∃ es, (updateStatus b env w).trace = w.trace ++ es ∧ Event.play ∉ es ∧
        ∀ u, Event.setSource u ∉ es) := by
  constructor
  · intro hn
    have h1 : env.status = MPDState_Playing := by
      simp only [playerNeedsToStart, Bool.and_eq_true, beq_iff_eq] at hn
      exact hn.1
    cases b <;> simp [updateStatus, hp, hn, h1, World.emit, startTimer]
  · intro hn
    by_cases hst : env.status = w.self.state
    · refine ⟨if env.status = MPDState_Playing then [Event.getState] else [], ?_, ?_, ?_⟩
      · by_cases h1 : env.status = MPDState_Playing <;>
          simp [updateStatus, hp, hn, h1, ← hst, World.emit]
      · split <;> simp
      · intro u
        split <;> simp
    · by_cases h1 : env.status = MPDState_Playing
      · have hst' : ¬ MPDState_Playing = w.self.state := h1 ▸ hst
        exact ⟨[Event.getState],
          by simp [updateStatus, hp, hn, h1, hst', World.emit], by simp, by simp⟩
      · by_cases h2 : (env.status == MPDState_Paused || env.status == MPDState_Inactive
            || env.status == MPDState_Stopped) = true
        · exact ⟨[Event.stop],
            by cases b <;> simp [updateStatus, hp, hn, h1, hst, h2, World.emit, stopTimer],
            by simp, by simp⟩
        · exact ⟨[],
            by cases b <;> simp [updateStatus, hp, hn, h1, hst, h2, World.emit, stopTimer],
            by simp, by simp⟩

/-- C16, as stated, fails in the QMediaPlayer build: with the remote Playing and the
backend paused (not playing), `playerNeedsToStart` is false and `updateStatus` on a
session issues no start. -/
theorem playerNeedsToStart_paused_counterexample :
    Env.playing.status = MPDState_Playing ∧
    PlaybackState.PausedState ≠ PlaybackState.PlayingState ∧
    playerNeedsToStart Build.QMediaPlayer
      { Env.playing with playbackState := PlaybackState.PausedState } = false ∧
    emitted World.withSession
      (updateStatus Build.QMediaPlayer
        { Env.playing with playbackState := PlaybackState.PausedState } World.withSession)
      = [Event.getState] := by
  decide

/-- C16 (amended): for every state with a session, the flag `playerNeedsToStart` computed
by `updateStatus` is true, and the start of lines 255-265 is issued, exactly when the
remote transport state is Playing and, in the LIBVLC build, the backend's state is
anything other than Playing (paused and buffering included); in the QMediaPlayer build,
the backend's playback state is Stopped (a paused player is not restarted). -/
theorem playerNeedsToStart_iff (env : Env) (w : World) (p : Player)
    (hp : w.self.player = some p) :
    (playerNeedsToStart Build.LIBVLC env = true ↔
      env.status = MPDState_Playing ∧ env.vlcState ≠ libvlc_state_t.libvlc_Playing) ∧
    (playerNeedsToStart Build.QMediaPlayer env = true ↔
      env.status = MPDState_Playing ∧ env.playbackState = PlaybackState.StoppedState) ∧
    (Event.play ∈ emitted w (updateStatus Build.LIBVLC env w) ↔
      env.status = MPDState_Playing ∧ env.vlcState ≠ libvlc_state_t.libvlc_Playing) ∧
    (Event.setSource p.url ∈ emitted w (updateStatus Build.QMediaPlayer env w) ↔
      env.status = MPDState_Playing ∧ env.playbackState = PlaybackState.StoppedState) := by
  have hv : playerNeedsToStart Build.LIBVLC env = true ↔
      env.status = MPDState_Playing ∧ env.vlcState ≠ libvlc_state_t.libvlc_Playing := by
    simp [playerNeedsToStart]
  have hq : playerNeedsToStart Build.QMediaPlayer env = true ↔
      env.status = MPDState_Playing ∧ env.playbackState = PlaybackState.StoppedState := by
    simp [playerNeedsToStart]
  refine ⟨hv, hq, ?_, ?_⟩
  · rw [← hv]
    obtain ⟨hy, hn⟩ := updateStatus_start_trace Build.LIBVLC env w p hp
    by_cases h : playerNeedsToStart Build.LIBVLC env = true
    · rw [emitted_append _ _ _ (hy h)]
      simp [h]
    · simp only [Bool.not_eq_true] at h
      obtain ⟨es, htr, hpl, _⟩ := hn h
      rw [emitted_append _ _ _ htr]
      simp [h, hpl]
  · rw [← hq]
    obtain ⟨hy, hn⟩ := updateStatus_start_trace Build.QMediaPlayer env w p hp
    by_cases h : playerNeedsToStart Build.QMediaPlayer env = true
    · rw [emitted_append _ _ _ (hy h)]
      simp [h]
    · simp only [Bool.not_eq_true] at h
      obtain ⟨es, htr, _, hss⟩ := hn h
      rw [emitted_append _ _ _ htr]
      simp [h, hss]

/-- Witness of `playerNeedsToStart_iff`: the sample session, remote Playing, backend
opening (LIBVLC) or stopped (QMediaPlayer). -/
theorem playerNeedsToStart_iff_witness :
    World.withSession.self.player
      = some { url := "http://stream.example/radio", audioMuted := false } ∧
    playerNeedsToStart Build.LIBVLC Env.playing = true ∧
    Event.play ∈ emitted World.withSession
      (updateStatus Build.LIBVLC Env.playing World.withSession) :=
  have h := playerNeedsToStart_iff Env.playing World.withSession
    { url := "http://stream.example/radio", audioMuted := false } rfl
  ⟨rfl, h.1.mpr (by decide), h.2.2.1.mpr (by decide)⟩

/-! ## streamUrl: the forced update -/

theorem streamUrl.clear_trace (b : Build) (q : String → QUrl) (url : String) (w : World) :
    ∃ es, (streamUrl.clear b q url w).trace = w.trace ++ es := by
  unfold streamUrl.clear
  split
  · exact ⟨[], by simp⟩
  · split
    · exact ⟨_, rfl⟩
    · dsimp only
      split
      · exact ⟨_, rfl⟩
      · exact ⟨[], by simp⟩

theorem streamUrl.create_trace (q : String → QUrl) (url : String) (w : World) :
    ∃ es, (streamUrl.create q url w).trace = w.trace ++ es := by
  unfold streamUrl.create
  dsimp only
  split
  · refine ⟨[Event.create url, Event.configGet "volume",
      Event.setVolume (Configuration.get w.settings "volume" w.self.currentVolume),
      Event.emitUpdate], ?_⟩
    simp [setVolume, World.emit]
  · exact ⟨[], by simp⟩

/-- With a player, the third block of `streamUrl` is `updateStatus` on the object whose
last observed state was overwritten with `0xFFFF`. -/
theorem streamUrl.reconcile_some (b : Build) (env : Env) (w : World)
    (hp : w.self.player ≠ none) :
    streamUrl.reconcile b env w
      = updateStatus b env { w with self := { w.self with state := 0xFFFF } } := by
  unfold streamUrl.reconcile
  split
  · rfl
  · rename_i hn
    exact absurd hn hp

theorem streamUrl.reconcile_none (b : Build) (env : Env) (w : World)
    (hp : w.self.player = none) :
    streamUrl.reconcile b env w
      = { w with self := { w.self with state := MPDState_Inactive } } := by
  unfold streamUrl.reconcile
  split
  · rename_i p hs
    rw [hp] at hs
    exact absurd hs (by simp)
  · rfl

theorem streamUrl.reconcile_trace (b : Build) (env : Env) (w : World) :
    ∃ es, (streamUrl.reconcile b env w).trace = w.trace ++ es := by
  by_cases hp : w.self.player = none
  · rw [streamUrl.reconcile_none b env w hp]
    exact ⟨[], by simp⟩
  · rw [streamUrl.reconcile_some b env w hp]
    obtain ⟨es, h, _⟩ := updateStatus_emitted b env
      { w with self := { w.self with state := 0xFFFF } }
    exact ⟨es, h⟩

/-- C18: after `streamUrl(url)` returns, from any state: if a session exists, the last
observed state equals the remote's current transport state, and when that state is
Paused, Inactive or Stopped the call ends with a backend stop followed by `update()`,
whatever the last observed state was before (line 202 overwrote it with `0xFFFF`, which
differs from the four transport states, so the short-circuit of line 247 is not taken);
if no session exists, the last observed state is Inactive. In both cases the last call
made is the `update()` notification. -/
theorem streamUrl_forces_update (b : Build) (q : String → QUrl) (url : String) (env : Env)
    (w : World) :
    ((streamUrl b q url env w).self.player ≠ none →
      (streamUrl b q url env w).self.state = env.status ∧
      ((env.status = MPDState_Paused ∨ env.status = MPDState_Inactive ∨
          env.status = MPDState_Stopped) →
        ∃ pre, emitted w (streamUrl b q url env w)
          = pre ++ [Event.stop, Event.emitUpdate])) ∧
    ((streamUrl b q url env w).self.player = none →
      (streamUrl b q url env w).self.state = MPDState_Inactive) ∧
    (∃ pre, emitted w (streamUrl b q url env w) = pre ++ [Event.emitUpdate]) ∧
    (MPDState_Inactive ≠ 0xFFFF ∧ MPDState_Playing ≠ 0xFFFF ∧ MPDState_Stopped ≠ 0xFFFF ∧
      MPDState_Paused ≠ 0xFFFF) := by
  obtain ⟨es1, h1⟩ := streamUrl.clear_trace b q url w
  obtain ⟨es2, h2⟩ := streamUrl.create_trace q url (streamUrl.clear b q url w)
  obtain ⟨es3, h3⟩ := streamUrl.reconcile_trace b env
    (streamUrl.create q url (streamUrl.clear b q url w))
  have hpl : (streamUrl b q url env w).self.player
      = (streamUrl.create q url (streamUrl.clear b q url w)).self.player := by
    unfold streamUrl
    rw [emit_self, streamUrl.reconcile_player]
  have hst : (streamUrl b q url env w).self.state
      = (streamUrl.reconcile b env
          (streamUrl.create q url (streamUrl.clear b q url w))).self.state := rfl
  have htr : (streamUrl b q url env w).trace
      = (streamUrl.reconcile b env
          (streamUrl.create q url (streamUrl.clear b q url w))).trace
        ++ [Event.emitUpdate] := rfl
  refine ⟨?_, ?_, ?_, by decide⟩
  · intro hp
    rw [hpl] at hp
    rw [hst, streamUrl.reconcile_some b env _ hp]
    refine ⟨updateStatus_state b env _ hp, ?_⟩
    intro hs
    have hne : env.status ≠ (0xFFFF : Int) := by
      rcases hs with h | h | h <;> rw [h] <;> decide
    have hstop := updateStatus_stop_trace b env
      { streamUrl.create q url (streamUrl.clear b q url w) with
        self := { (streamUrl.create q url (streamUrl.clear b q url w)).self with
          state := 0xFFFF } } hp hne hs
    refine ⟨es1 ++ es2, ?_⟩
    apply emitted_append
    rw [htr, streamUrl.reconcile_some b env _ hp, hstop]
    dsimp only
    rw [h2, h1]
    simp
  · intro hp
    rw [hpl] at hp
    rw [hst, streamUrl.reconcile_none b env _ hp]
  · refine ⟨es1 ++ es2 ++ es3, ?_⟩
    apply emitted_append
    rw [htr, h3, h2, h1]
    simp

/-- Witness of `streamUrl_forces_update`: QMediaPlayer build, remote Paused; the object
already has the session and last observed Paused, and the stop is issued again. -/
theorem streamUrl_forces_update_witness :
    (streamUrl Build.QMediaPlayer QUrl.ofString "http://stream.example/radio" Env.paused
      (World.new [])).self.state = Env.paused.status ∧
    (streamUrl Build.QMediaPlayer QUrl.ofString "http://stream.example/radio" Env.paused
      (streamUrl Build.QMediaPlayer QUrl.ofString "http://stream.example/radio" Env.paused
        (World.new []))).self.state = Env.paused.status ∧
    ∃ pre, emitted
        (streamUrl Build.QMediaPlayer QUrl.ofString "http://stream.example/radio" Env.paused
          (World.new []))
        (streamUrl Build.QMediaPlayer QUrl.ofString "http://stream.example/radio" Env.paused
          (streamUrl Build.QMediaPlayer QUrl.ofString "http://stream.example/radio" Env.paused
            (World.new [])))
      = pre ++ [Event.stop, Event.emitUpdate] :=
  have h := (streamUrl_forces_update Build.QMediaPlayer QUrl.ofString
    "http://stream.example/radio" Env.paused
    (streamUrl Build.QMediaPlayer QUrl.ofString "http://stream.example/radio" Env.paused
      (World.new []))).1 (by decide)
  ⟨by decide, h.1, h.2 (Or.inl rfl)⟩

/-! ## setEnabled(true) -/

/-- C11, as stated, fails in the QMediaPlayer build: enabling a new object over a stored
volume of 30, with the remote advertising `http://stream.example/radio` and Playing and a
stopped backend, creates the session and applies the volume, but issues no play command
(the source is set again instead) and arms no watchdog. -/
theorem setEnabled_true_qmediaplayer_counterexample :
    emitted (World.new [("volume", 30)])
        (setEnabled Build.QMediaPlayer QUrl.ofString true Env.playing (World.new [("volume", 30)]))
      = [Event.connect, Event.create "http://stream.example/radio", Event.configGet "volume",
          Event.setVolume 30, Event.emitUpdate, Event.getState,
          Event.setSource "http://stream.example/radio", Event.emitUpdate,
          Event.emitIsEnabled true] ∧
    Event.play ∉ emitted (World.new [("volume", 30)])
        (setEnabled Build.QMediaPlayer QUrl.ofString true Env.playing (World.new [("volume", 30)])) ∧
    (setEnabled Build.QMediaPlayer QUrl.ofString true Env.playing
      (World.new [("volume", 30)])).self.timerActive = false ∧
    (setEnabled Build.QMediaPlayer QUrl.ofString true Env.playing
      (World.new [("volume", 30)])).self.playStateChecks ≠ 8 := by
  decide

/-- C11 (amended): from the initial state, with the remote advertising an acceptable URL
(such as `http://stream.example/radio`), remote transport state Playing, a new backend
that is not playing and stored volume `vol`: `setEnabled(true)` creates a session bound
to that URL and applies `vol` to the backend with `currentVolume = vol` and
`muted = false`. In the LIBVLC build it then issues a play command and arms the watchdog
with the full budget (timer running, `playStateChecks = 8`); in the QMediaPlayer build it
sets the player's source again instead, issues no play command and arms no watchdog. -/
theorem setEnabled_true_starts (b : Build) (q : String → QUrl) (settings : List (String × Int))
    (env : Env) (vol : Int)
    (hacc : acceptable q env.streamUrl = true) (hs : env.status = MPDState_Playing)
    (hvol : settings.lookup "volume" = some vol)
    (hvlc : b = Build.LIBVLC → env.vlcState ≠ libvlc_state_t.libvlc_Playing)
    (hqt : b = Build.QMediaPlayer → env.playbackState = PlaybackState.StoppedState) :
    (setEnabled b q true env (World.new settings)).self.player
      = some { url := env.streamUrl, audioMuted := false } ∧
    (setEnabled b q true env (World.new settings)).self.currentVolume = vol ∧
    (setEnabled b q true env (World.new settings)).self.muted = false ∧
    (setEnabled b q true env (World.new settings)).self.enabled = true ∧
    (setEnabled b q true env (World.new settings)).self.state = MPDState_Playing ∧
    emitted (World.new settings) (setEnabled b q true env (World.new settings))
      = [Event.connect, Event.create env.streamUrl, Event.configGet "volume",
          Event.setVolume vol, Event.emitUpdate, Event.getState,
          (match b with
            | Build.LIBVLC => Event.play
            | Build.QMediaPlayer => Event.setSource env.streamUrl),
          Event.emitUpdate, Event.emitIsEnabled true] ∧
    (b = Build.LIBVLC →
      (setEnabled b q true env (World.new settings)).self.timerActive = true ∧
      (setEnabled b q true env (World.new settings)).self.playStateChecks = 8) ∧
    (b = Build.QMediaPlayer →
      (setEnabled b q true env (World.new settings)).self.timerActive = false ∧
      (setEnabled b q true env (World.new settings)).self.playStateChecks = 0) := by
  simp only [acceptable, Bool.and_eq_true] at hacc
  obtain ⟨⟨hne, hvalid⟩, hscheme⟩ := hacc
  cases b
  · have hv := hvlc rfl
    have hw : setEnabled Build.LIBVLC q true env (World.new settings) =
        { self :=
            { enabled := true
              muted := false
              state := MPDState_Playing
              playStateChecks := 8
              currentVolume := vol
              unmuteVol := 50
              playStateCheckTimer :=
                some { singleShot := false, interval := constPlayerCheckPeriod, active := true }
              player := some { url := env.streamUrl, audioMuted := false } }
          settings := settings
          trace := [Event.connect, Event.create env.streamUrl, Event.configGet "volume",
            Event.setVolume vol, Event.emitUpdate, Event.getState, Event.play,
            Event.emitUpdate, Event.emitIsEnabled true] } := by
      simp [setEnabled, streamUrl, streamUrl.clear, streamUrl.create, streamUrl.reconcile,
        updateStatus, playerNeedsToStart, startTimer, setVolume, World.emit, World.new,
        Fields.new, Configuration.get, hne, hvalid, hscheme, hs, hvol, hv,
        constMaxPlayStateChecks_eq]
    rw [hw]
    refine ⟨rfl, rfl, rfl, rfl, rfl, ?_, fun _ => ⟨rfl, rfl⟩, fun h => by cases h⟩
    simp [emitted, World.new]
  · have hq := hqt rfl
    have hw : setEnabled Build.QMediaPlayer q true env (World.new settings) =
        { self :=
            { enabled := true
              muted := false
              state := MPDState_Playing
              playStateChecks := 0
              currentVolume := vol
              unmuteVol := 50
              playStateCheckTimer := none
              player := some { url := env.streamUrl, audioMuted := false } }
          settings := settings
          trace := [Event.connect, Event.create env.streamUrl, Event.configGet "volume",
            Event.setVolume vol, Event.emitUpdate, Event.getState,
            Event.setSource env.streamUrl, Event.emitUpdate, Event.emitIsEnabled true] } := by
      simp [setEnabled, streamUrl, streamUrl.clear, streamUrl.create, streamUrl.reconcile,
        updateStatus, playerNeedsToStart, setVolume, World.emit, World.new,
        Fields.new, Configuration.get, hne, hvalid, hscheme, hs, hvol, hq]
    rw [hw]
    refine ⟨rfl, rfl, rfl, rfl, rfl, ?_, (fun h => by cases h), fun _ => ⟨rfl, rfl⟩⟩
    simp [emitted, World.new]

/-- Witness of `setEnabled_true_starts`: LIBVLC build, remote URL
`http://stream.example/radio`, remote Playing, backend opening, stored volume 30. -/
theorem setEnabled_true_starts_witness :
    (setEnabled Build.LIBVLC QUrl.ofString true Env.playing (World.new [("volume", 30)])).self.player
      = some { url := "http://stream.example/radio", audioMuted := false } ∧
    (setEnabled Build.LIBVLC QUrl.ofString true Env.playing
      (World.new [("volume", 30)])).self.currentVolume = 30 ∧
    emitted (World.new [("volume", 30)])
        (setEnabled Build.LIBVLC QUrl.ofString true Env.playing (World.new [("volume", 30)]))
      = [Event.connect, Event.create "http://stream.example/radio", Event.configGet "volume",
          Event.setVolume 30, Event.emitUpdate, Event.getState, Event.play,
          Event.emitUpdate, Event.emitIsEnabled true] ∧
    (setEnabled Build.LIBVLC QUrl.ofString true Env.playing
      (World.new [("volume", 30)])).self.timerActive = true ∧
    (setEnabled Build.LIBVLC QUrl.ofString true Env.playing
      (World.new [("volume", 30)])).self.playStateChecks = 8 :=
  have h := setEnabled_true_starts Build.LIBVLC QUrl.ofString [("volume", 30)] Env.playing 30
    (by decide) (by decide) (by decide) (fun _ => by decide) (fun h => by cases h)
  ⟨h.1, h.2.1, h.2.2.2.2.2.1, (h.2.2.2.2.2.2.1 rfl).1, (h.2.2.2.2.2.2.1 rfl).2⟩

/-! ## toggleMute -/

/-- In the LIBVLC build `toggleMute` on a session flips `muted` and passes the new value
to the backend, whose mute flag then equals the local one. -/
theorem toggleMute_libvlc (w : World) (p : Player) (hp : w.self.player = some p) :
    (toggleMute Build.LIBVLC w).self.muted = !w.self.muted ∧
    emitted w (toggleMute Build.LIBVLC w)
      = [Event.setMute (toggleMute Build.LIBVLC w).self.muted, Event.emitUpdate] ∧
    (toggleMute Build.LIBVLC w).self.player
      = some { p with audioMuted := (toggleMute Build.LIBVLC w).self.muted } := by
  refine ⟨?_, ?_, ?_⟩
  · simp [toggleMute, hp]
  · apply emitted_append
    simp [toggleMute, hp]
  · simp [toggleMute, hp]

theorem toggleMute_no_session (b : Build) (w : World) (hp : w.self.player = none) :
    toggleMute b w = w := by
  simp [toggleMute, hp]

/-- C13: the code evaluated in the QMediaPlayer build on an unmuted session: `toggleMute`
sets the local `muted` flag to true but passes `false` to the backend's set-mute command,
so the backend's mute flag right after the call is `false`, not the local value. -/
theorem toggleMute_qmediaplayer_inverts :
    World.withSession.self.muted = false ∧
    (toggleMute Build.QMediaPlayer World.withSession).self.muted = true ∧
    emitted World.withSession (toggleMute Build.QMediaPlayer World.withSession)
      = [Event.setMute false, Event.emitUpdate] ∧
    (toggleMute Build.QMediaPlayer World.withSession).self.player
      = some { url := "http://stream.example/radio", audioMuted := false } ∧
    (toggleMute Build.LIBVLC World.withSession).self.player
      = some { url := "http://stream.example/radio", audioMuted := true } := by
  decide

/-! ## streamUrl and the settings store -/

theorem streamUrl.clear_torn (b : Build) (q : String → QUrl) (url : String) (w : World)
    (hp : w.self.player ≠ none) (hn : (streamUrl.clear b q url w).self.player = none) :
    streamUrl.clear b q url w =
      { w with
        self := { w.self with player := none }
        trace := w.trace ++ [Event.stop, Event.release] } := by
  unfold streamUrl.clear at hn ⊢
  split at hn
  · rename_i h
    exact absurd h hp
  · rename_i p h
    split at hn
    · simp [h]
    · dsimp only at hn ⊢
      split at hn
      · rename_i hc
        simp [h, hc]
      · exact absurd hn hp

/-- C14, as stated, fails: on the sample session (settings store empty, `currentVolume`
50) `streamUrl("")` gives up the session and creates none, and nothing is written to the
settings store. -/
theorem streamUrl_teardown_no_save_counterexample :
    World.withSession.self.player ≠ none ∧
    (streamUrl Build.LIBVLC QUrl.ofString "" Env.playing World.withSession).self.player = none ∧
    (streamUrl Build.LIBVLC QUrl.ofString "" Env.playing World.withSession).settings.lookup
      "volume" = none ∧
    Event.configSet "volume" 50 ∉
      emitted World.withSession
        (streamUrl Build.LIBVLC QUrl.ofString "" Env.playing World.withSession) ∧
    emitted World.withSession
        (streamUrl Build.QMediaPlayer QUrl.ofString "" Env.playing World.withSession)
      = [Event.stop, Event.release, Event.emitUpdate] := by
  decide

/-- C14 (amended): for every state with a session, a `streamUrl` call that gives the
session up and creates no new one stops and releases the player and emits `update()`,
and nothing else: it writes nothing to the settings store, which is unchanged, and
`currentVolume` keeps its value in the object. -/
theorem streamUrl_teardown_keeps_settings (b : Build) (q : String → QUrl) (url : String)
    (env : Env) (w : World) (hp : w.self.player ≠ none)
    (hn : (streamUrl b q url env w).self.player = none) :
    emitted w (streamUrl b q url env w) = [Event.stop, Event.release, Event.emitUpdate] ∧
    (∀ key value, Event.configSet key value ∉ emitted w (streamUrl b q url env w)) ∧
    (streamUrl b q url env w).settings = w.settings ∧
    (streamUrl b q url env w).self.currentVolume = w.self.currentVolume := by
  have hpl : (streamUrl b q url env w).self.player
      = (streamUrl.create q url (streamUrl.clear b q url w)).self.player := by
    unfold streamUrl
    rw [emit_self, streamUrl.reconcile_player]
  rw [hpl] at hn
  have hcr := streamUrl.create_rejects q url (streamUrl.clear b q url w)
    (streamUrl.create_none q url _ hn)
  rw [hcr] at hn
  have hcl := streamUrl.clear_torn b q url w hp hn
  have hs : streamUrl b q url env w =
      { w with
        self := { w.self with player := none, state := MPDState_Inactive }
        trace := w.trace ++ [Event.stop, Event.release, Event.emitUpdate] } := by
    unfold streamUrl
    rw [hcr, streamUrl.reconcile_none b env _ hn, hcl]
    simp [World.emit]
  have he : emitted w (streamUrl b q url env w)
      = [Event.stop, Event.release, Event.emitUpdate] :=
    emitted_append _ _ _ (by rw [hs])
  rw [he, hs]
  exact ⟨rfl, fun key value => by simp, rfl, rfl⟩

/-- Witness of `streamUrl_teardown_keeps_settings`: `streamUrl("")` on the sample
session. -/
theorem streamUrl_teardown_keeps_settings_witness :
    emitted World.withSession
        (streamUrl Build.LIBVLC QUrl.ofString "" Env.playing World.withSession)
      = [Event.stop, Event.release, Event.emitUpdate] ∧
    (∀ key value, Event.configSet key value ∉ emitted World.withSession
        (streamUrl Build.LIBVLC QUrl.ofString "" Env.playing World.withSession)) ∧
    (streamUrl Build.LIBVLC QUrl.ofString "" Env.playing World.withSession).settings
      = World.withSession.settings ∧
    (streamUrl Build.LIBVLC QUrl.ofString "" Env.playing World.withSession).self.currentVolume
      = World.withSession.self.currentVolume :=
  streamUrl_teardown_keeps_settings Build.LIBVLC QUrl.ofString "" Env.playing World.withSession
    (by decide) (by decide)

/-! ## The URL of the session -/

/-- C15, as stated, fails: `streamUrl("httpx://stream.example/radio")` on a new object
creates a session, for a valid URL whose scheme `httpx` starts with "http" and is neither
"http" nor "https". -/
theorem session_scheme_counterexample :
    Reachable Build.LIBVLC QUrl.ofString anyCall [] World.httpxSession ∧
    World.httpxSession.self.player
      = some { url := "httpx://stream.example/radio", audioMuted := false } ∧
    (QUrl.ofString "httpx://stream.example/radio").isValid = true ∧
    (QUrl.ofString "httpx://stream.example/radio").scheme = "httpx" ∧
    (QUrl.ofString "httpx://stream.example/radio").scheme ≠ "http" ∧
    (QUrl.ofString "httpx://stream.example/radio").scheme ≠ "https" := by
  refine ⟨?_, by decide, by decide, by decide, by decide, by decide⟩
  exact Reachable.step (Call.streamUrl "httpx://stream.example/radio") Env.playing
    Reachable.new trivial rfl

/-- C15 (amended): in every state reachable from the initial state by any sequence of
calls, if a session exists then the URL it was created with is non-empty, valid, and its
scheme starts with "http". -/
theorem session_url_acceptable (b : Build) (q : String → QUrl)
    (settings : List (String × Int)) (w : World) (p : Player)
    (hr : Reachable b q anyCall settings w) (hp : w.self.player = some p) :
    p.url ≠ "" ∧ (q p.url).isValid = true ∧ startsWith (q p.url).scheme "http" = true := by
  have h := reachable_sessionUrlOk b q anyCall settings w hr p hp
  simp only [acceptable, Bool.and_eq_true, bne_iff_ne, ne_eq] at h
  exact ⟨h.1.1, h.1.2, h.2⟩

/-- Witness of `session_url_acceptable`: the session for `httpx://stream.example/radio`. -/
theorem session_url_acceptable_witness :
    ("httpx://stream.example/radio" : String) ≠ "" ∧
    (QUrl.ofString "httpx://stream.example/radio").isValid = true ∧
    startsWith (QUrl.ofString "httpx://stream.example/radio").scheme "http" = true :=
  session_url_acceptable Build.LIBVLC QUrl.ofString [] World.httpxSession
    { url := "httpx://stream.example/radio", audioMuted := false }
    (Reachable.step (Call.streamUrl "httpx://stream.example/radio") Env.playing
      Reachable.new trivial rfl)
    (by decide)

/-! ## The watchdog invariant -/

theorem SameWatchdog.inv {w w' : World} (h : SameWatchdog w w') (hw : WatchdogInv w) :
    WatchdogInv w' := by
  unfold WatchdogInv Fields.timerActive at *
  rw [h.1, h.2]
  exact hw

theorem startTimer_watchdogInv (w : World) : WatchdogInv (startTimer w) := by
  obtain ⟨ha, hc, _, _⟩ := startTimer_armed w
  unfold WatchdogInv
  rw [ha, hc]
  exact ⟨by decide, by decide⟩

theorem stopTimer_watchdogInv (w : World) : WatchdogInv (stopTimer w) := by
  have ha : (stopTimer w).self.timerActive = false := by
    cases ht : w.self.playStateCheckTimer <;> simp [stopTimer, Fields.timerActive, ht]
  have hc : (stopTimer w).self.playStateChecks = 0 := rfl
  unfold WatchdogInv
  rw [ha, hc]
  exact ⟨by decide, by decide⟩

/-- `updateStatus` leaves the watchdog as it is, or as `startTimer` or `stopTimer` would
leave it. -/
theorem updateStatus_watchdog (b : Build) (env : Env) (w : World) :
    SameWatchdog w (updateStatus b env w) ∨
    SameWatchdog (startTimer w) (updateStatus b env w) ∨
    SameWatchdog (stopTimer w) (updateStatus b env w) := by
  cases hp : w.self.player with
  | none => left; simp [updateStatus, hp, SameWatchdog]
  | some p =>
    by_cases hst : env.status = w.self.state <;>
      by_cases h1 : env.status = MPDState_Playing <;>
      by_cases hn : playerNeedsToStart b env = true <;>
      by_cases h2 : (env.status == MPDState_Paused || env.status == MPDState_Inactive
          || env.status == MPDState_Stopped) = true <;>
      cases b <;>
      simp [updateStatus, hp, h1, hn, h2, World.emit, startTimer, stopTimer, SameWatchdog] <;>
      split <;> simp_all

theorem updateStatus_watchdogInv (b : Build) (env : Env) (w : World) (hw : WatchdogInv w) :
    WatchdogInv (updateStatus b env w) := by
  rcases updateStatus_watchdog b env w with h | h | h
  · exact h.inv hw
  · exact h.inv (startTimer_watchdogInv w)
  · exact h.inv (stopTimer_watchdogInv w)

theorem streamUrl.clear_watchdog (b : Build) (q : String → QUrl) (url : String) (w : World) :
    SameWatchdog w (streamUrl.clear b q url w) := by
  unfold streamUrl.clear
  split
  · exact ⟨rfl, rfl⟩
  · split
    · exact ⟨rfl, rfl⟩
    · dsimp only
      split <;> exact ⟨rfl, rfl⟩

theorem streamUrl.create_watchdog (q : String → QUrl) (url : String) (w : World) :
    SameWatchdog w (streamUrl.create q url w) := by
  unfold streamUrl.create
  dsimp only
  split
  · simp [SameWatchdog, setVolume, World.emit]
  · exact ⟨rfl, rfl⟩

theorem streamUrl_watchdogInv (b : Build) (q : String → QUrl) (url : String) (env : Env)
    (w : World) (hw : WatchdogInv w) : WatchdogInv (streamUrl b q url env w) := by
  have h1 := (streamUrl.clear_watchdog b q url w).inv hw
  have h2 := (streamUrl.create_watchdog q url _).inv h1
  have h3 : WatchdogInv (streamUrl.reconcile b env
      (streamUrl.create q url (streamUrl.clear b q url w))) := by
    by_cases hp : (streamUrl.create q url (streamUrl.clear b q url w)).self.player = none
    · rw [streamUrl.reconcile_none b env _ hp]
      exact h2
    · rw [streamUrl.reconcile_some b env _ hp]
      exact updateStatus_watchdogInv b env _ h2
  exact h3

theorem watchdogInv_of_stopped (w : World) (ha : w.self.timerActive = false)
    (hc : w.self.playStateChecks = 0) : WatchdogInv w := by
  unfold WatchdogInv
  rw [ha, hc]
  exact ⟨by decide, by decide⟩

/-- One tick against a backend that reports Playing: the watchdog is disarmed. -/
theorem checkPlayer_confirmed (env : Env) (w : World) (hp : w.self.player ≠ none)
    (hb : env.vlcState = libvlc_state_t.libvlc_Playing) :
    ∃ w', checkPlayer Build.LIBVLC env w = some w' ∧
      w'.self.timerActive = false ∧ w'.self.playStateChecks = 0 := by
  obtain ⟨p, hp⟩ := Option.ne_none_iff_exists'.mp hp
  by_cases h0 : w.self.playStateChecks - 1 = 0 <;>
    cases ht : w.self.playStateCheckTimer <;>
    simp [checkPlayer, hp, hb, h0, ht, stopTimer, World.emit, Fields.timerActive,
      eq_comm (a := (0 : Int))]

/-- A tick that fires while the timer is running keeps the invariant. -/
theorem checkPlayer_watchdogInv (b : Build) (env : Env) (w w' : World) (hw : WatchdogInv w)
    (ha : w.self.timerActive = true) (h : checkPlayer b env w = some w') :
    WatchdogInv w' := by
  cases b with
  | QMediaPlayer =>
    simp only [checkPlayer, Option.some.injEq] at h
    rw [← h]
    exact hw
  | LIBVLC =>
    have hr := hw.1.mp ha
    have hp : w.self.player ≠ none := by
      intro hp
      by_cases h0 : w.self.playStateChecks - 1 = 0 <;>
        simp [checkPlayer, hp, h0, stopTimer, eq_comm (a := (0 : Int))] at h
    by_cases hv : env.vlcState = libvlc_state_t.libvlc_Playing
    · obtain ⟨w1, h1, hta, hc⟩ := checkPlayer_confirmed env w hp hv
      rw [h1] at h
      cases h
      exact watchdogInv_of_stopped _ hta hc
    · obtain ⟨w1, h1, _, _, hc, hta⟩ := checkPlayer_retry env w hp hv
      rw [h1] at h
      cases h
      by_cases h0 : w.self.playStateChecks - 1 = 0
      · exact watchdogInv_of_stopped _ (by rw [hta]; simp [h0]) (by rw [hc]; exact h0)
      · unfold WatchdogInv
        rw [hta, hc, ha]
        refine ⟨⟨fun _ => ⟨by omega, by omega⟩, fun _ => by simp [h0]⟩, fun hf => ?_⟩
        simp [h0] at hf

theorem step_watchdogInv (b : Build) (q : String → QUrl) (c : Call) (env : Env)
    (w w' : World) (hw : WatchdogInv w) (ha : timerCalls c env w)
    (h : step b q c env w = some w') : WatchdogInv w' := by
  cases c with
  | startTimer =>
    simp only [step, Option.some.injEq] at h
    subst h
    exact startTimer_watchdogInv w
  | stopTimer =>
    simp only [step, Option.some.injEq] at h
    subst h
    exact stopTimer_watchdogInv w
  | updateStatus =>
    simp only [step, Option.some.injEq] at h
    subst h
    exact updateStatus_watchdogInv b env w hw
  | streamUrl url =>
    simp only [step, Option.some.injEq] at h
    subst h
    exact streamUrl_watchdogInv b q url env w hw
  | checkPlayer =>
    simp only [step] at h
    exact checkPlayer_watchdogInv b env w w' hw ha h
  | setEnabled e => exact absurd ha (by simp [timerCalls])
  | setVolume vol => exact absurd ha (by simp [timerCalls])
  | volume => exact absurd ha (by simp [timerCalls])
  | toggleMute => exact absurd ha (by simp [timerCalls])
  | bufferingProgress progress => exact absurd ha (by simp [timerCalls])

/-- C19: in the LIBVLC build, in every state reachable from the initial state by
`startTimer`, `stopTimer`, `updateStatus`, `streamUrl` and `checkPlayer` steps, where
`checkPlayer` fires only while the timer is running: the timer is running if and only if
`1 ≤ playStateChecks ≤ 8`, and when the timer is not running `playStateChecks = 0`. -/
theorem watchdog_invariant (q : String → QUrl) (settings : List (String × Int)) (w : World)
    (hr : Reachable Build.LIBVLC q timerCalls settings w) :
    (w.self.timerActive = true ↔ 1 ≤ w.self.playStateChecks ∧ w.self.playStateChecks ≤ 8) ∧
    (w.self.timerActive = false → w.self.playStateChecks = 0) := by
  induction hr with
  | new => exact ⟨by simp [World.new, Fields.new, Fields.timerActive], fun _ => rfl⟩
  | step c env _ ha hst ih => exact step_watchdogInv Build.LIBVLC q c env _ _ ih ha hst

/-- Witness of `watchdog_invariant`: the watchdog armed by `streamUrl` on a new object. -/
theorem watchdog_invariant_witness :
    World.armedSession.self.timerActive = true ∧
    World.armedSession.self.playStateChecks = 8 ∧
    (World.armedSession.self.timerActive = true ↔
      1 ≤ World.armedSession.self.playStateChecks ∧
        World.armedSession.self.playStateChecks ≤ 8) :=
  ⟨by decide, by decide,
    (watchdog_invariant QUrl.ofString [] World.armedSession
      (Reachable.step (Call.streamUrl "http://stream.example/radio") Env.playing
        Reachable.new trivial rfl)).1⟩

/-! ## The watchdog and the session -/

/-- C20: the code evaluated in the LIBVLC build on a new object: after `setEnabled(true)`
with the remote advertising `http://stream.example/radio` and Playing, and then
`streamUrl("")`, the session is gone (lines 155-160) while the watchdog is still armed
(timer running, `playStateChecks = 8`): the next `checkPlayer` tick hands the null
`player` to libvlc (line 292). -/
theorem watchdog_outlives_session :
    Reachable Build.LIBVLC QUrl.ofString sessionCalls [] World.armedNoSession ∧
    World.armedNoSession.self.timerActive = true ∧
    World.armedNoSession.self.playStateChecks = 8 ∧
    World.armedNoSession.self.player = none ∧
    sessionCalls Call.checkPlayer Env.playing World.armedNoSession ∧
    checkPlayer Build.LIBVLC Env.playing World.armedNoSession = none := by
  refine ⟨?_, by decide, by decide, by decide, ?_, by decide⟩
  · exact Reachable.step (Call.streamUrl "") Env.playing
      (Reachable.step (Call.setEnabled true) Env.playing Reachable.new trivial rfl)
      trivial rfl
  · show World.armedNoSession.self.timerActive = true
    decide

end HttpStream
